import Mathlib

/-!
Verification development for the Brillix business-management backend
(Express + Mongoose).  The definitions below are a shallow embedding of
the repository's JavaScript source: the `register`, `login`,
`updatePassword` flows of `src/backend/src/controllers/authController.js`,
the `updatePreferences` / `updateProfile` flows of the business controller,
and the Mongoose models `User` and `Business` (schema setters, validators
and `pre('save')` hooks).  JavaScript strings are modelled as Lean
`String`; the JS string operations used by the code (`trim`,
`toLowerCase`, `toUpperCase`, truthiness, `Array.prototype.indexOf`) are
defined explicitly so that their semantics is under the control of this
file.  Dates are modelled as `Nat` timestamps, MongoDB object ids as `Nat`.
-/

/-! ## JavaScript string primitives -/

/-- Whitespace characters recognised by JS `trim` (ASCII part: space, tab,
LF, VT, FF, CR).  Identified by code point. -/
def jsWhitespaceChar (c : Char) : Bool :=
  c.toNat = 32 || c.toNat = 9 || c.toNat = 10 || c.toNat = 11 ||
  c.toNat = 12 || c.toNat = 13

/-- ASCII lower-casing, as performed by JS `toLowerCase` on ASCII data. -/
def jsCharToLower (c : Char) : Char :=
  if 65 ≤ c.toNat && c.toNat ≤ 90 then Char.ofNat (c.toNat + 32) else c

/-- ASCII upper-casing, as performed by JS `toUpperCase` on ASCII data. -/
def jsCharToUpper (c : Char) : Char :=
  if 97 ≤ c.toNat && c.toNat ≤ 122 then Char.ofNat (c.toNat - 32) else c

/-- Drop trailing whitespace (the right half of JS `trim`). -/
def dropTrailingWs : List Char → List Char
  | [] => []
  | c :: rest =>
    let r := dropTrailingWs rest
    if r.isEmpty && jsWhitespaceChar c then [] else c :: r

/-- JS `String.prototype.trim` on the character list. -/
def jsTrimList (l : List Char) : List Char :=
  dropTrailingWs (l.dropWhile jsWhitespaceChar)

/-- JS `String.prototype.trim`. -/
def jsTrim (s : String) : String := String.mk (jsTrimList s.data)

/-- JS `String.prototype.toLowerCase` (ASCII). -/
def jsToLower (s : String) : String := String.mk (s.data.map jsCharToLower)

/-- JS `String.prototype.toUpperCase` (ASCII). -/
def jsToUpper (s : String) : String := String.mk (s.data.map jsCharToUpper)

/-- JS truthiness of an optional string value (`undefined`, `null` and
`""` are falsy, every other string truthy). -/
def jsTruthyS : Option String → Bool
  | none => false
  | some s => s ≠ ""

/-- JS `a || b` on string values: keep `a` when truthy, else `b`. -/
def jsOrS (a : Option String) (b : Option String) : Option String :=
  if jsTruthyS a then a else b

/-- JS `a || d` where `d` is a string default. -/
def jsOrDefault (a : Option String) (d : String) : String :=
  match a with
  | some s => if s = "" then d else s
  | none => d

/-! ### Facts about the JS string primitives -/

theorem char_toNat_ofNat_valid (n : Nat) (h : n < 55296) :
    (Char.ofNat n).toNat = n := by
  unfold Char.ofNat
  split
  · simp [Char.toNat, Char.ofNatAux, UInt32.toNat, BitVec.toNat_ofNatLt]
  · rename_i hv
    exact absurd (Or.inl h) hv

theorem jsWhitespaceChar_eq_false_of_range (c : Char)
    (h1 : 33 ≤ c.toNat) : jsWhitespaceChar c = false := by
  simp only [jsWhitespaceChar, Bool.or_eq_false_iff, decide_eq_false_iff_not]
  omega

theorem jsWhitespaceChar_toLower (c : Char) :
    jsWhitespaceChar (jsCharToLower c) = jsWhitespaceChar c := by
  unfold jsCharToLower
  split
  · rename_i h
    simp only [Bool.and_eq_true, decide_eq_true_eq] at h
    have ht : (Char.ofNat (c.toNat + 32)).toNat = c.toNat + 32 :=
      char_toNat_ofNat_valid _ (by omega)
    rw [jsWhitespaceChar_eq_false_of_range _ (by rw [ht]; omega),
        jsWhitespaceChar_eq_false_of_range _ (by omega)]
  · rfl

theorem jsWhitespaceChar_toUpper (c : Char) :
    jsWhitespaceChar (jsCharToUpper c) = jsWhitespaceChar c := by
  unfold jsCharToUpper
  split
  · rename_i h
    simp only [Bool.and_eq_true, decide_eq_true_eq] at h
    have ht : (Char.ofNat (c.toNat - 32)).toNat = c.toNat - 32 :=
      char_toNat_ofNat_valid _ (by omega)
    rw [jsWhitespaceChar_eq_false_of_range _ (by rw [ht]; omega),
        jsWhitespaceChar_eq_false_of_range _ (by omega)]
  · rfl

theorem jsCharToUpper_toUpper (c : Char) :
    jsCharToUpper (jsCharToUpper c) = jsCharToUpper c := by
  by_cases h : (97 ≤ c.toNat && c.toNat ≤ 122) = true
  · have hb : 97 ≤ c.toNat ∧ c.toNat ≤ 122 := by
      simpa [Bool.and_eq_true, decide_eq_true_eq] using h
    have hin : jsCharToUpper c = Char.ofNat (c.toNat - 32) := by
      unfold jsCharToUpper
      simp [h]
    rw [hin]
    have ht : (Char.ofNat (c.toNat - 32)).toNat = c.toNat - 32 :=
      char_toNat_ofNat_valid _ (by omega)
    unfold jsCharToUpper
    have hc : ¬ ((97 ≤ (Char.ofNat (c.toNat - 32)).toNat &&
        (Char.ofNat (c.toNat - 32)).toNat ≤ 122) = true) := by
      simp only [ht, Bool.and_eq_true, decide_eq_true_eq]
      omega
    simp [hc]
  · have hin : jsCharToUpper c = c := by
      unfold jsCharToUpper
      simp [h]
    rw [hin, hin]

theorem dropWhile_self (p : α → Bool) (l : List α) :
    l.dropWhile p = l ∨ l.length > (l.dropWhile p).length := by
  induction l with
  | nil => exact Or.inl rfl
  | cons c rest ih =>
    rw [List.dropWhile_cons]
    split
    · right
      rcases ih with h | h
      · rw [h]; simp
      · simp; omega
    · exact Or.inl rfl

theorem dropWhile_fix (p : α → Bool) (l : List α) :
    (l.dropWhile p).dropWhile p = l.dropWhile p := by
  induction l with
  | nil => rfl
  | cons c rest ih =>
    rw [List.dropWhile_cons]
    split
    · exact ih
    · rename_i h
      rw [List.dropWhile_cons]
      simp [h]

theorem list_isEmpty_map (f : α → β) (l : List α) :
    (l.map f).isEmpty = l.isEmpty := by
  cases l <;> rfl

theorem dropTrailingWs_map (f : Char → Char)
    (hf : ∀ c, jsWhitespaceChar (f c) = jsWhitespaceChar c) (l : List Char) :
    dropTrailingWs (l.map f) = (dropTrailingWs l).map f := by
  induction l with
  | nil => rfl
  | cons c rest ih =>
    simp only [List.map_cons, dropTrailingWs, ih, hf c, list_isEmpty_map]
    cases hE : ((dropTrailingWs rest).isEmpty && jsWhitespaceChar c) <;>
      simp only [hE, if_true, if_false, Bool.false_eq_true, ite_false, ite_true,
        List.map_cons, List.map_nil]

theorem dropTrailingWs_idem (l : List Char) :
    dropTrailingWs (dropTrailingWs l) = dropTrailingWs l := by
  induction l with
  | nil => rfl
  | cons c rest ih =>
    simp only [dropTrailingWs]
    split
    · rfl
    · rename_i h
      simp only [dropTrailingWs, ih]
      split
      · rename_i h2
        exact absurd h2 h
      · rfl

theorem jsTrimList_map (f : Char → Char)
    (hf : ∀ c, jsWhitespaceChar (f c) = jsWhitespaceChar c) (l : List Char) :
    jsTrimList (l.map f) = (jsTrimList l).map f := by
  have hcomp : (jsWhitespaceChar ∘ f) = jsWhitespaceChar := funext hf
  unfold jsTrimList
  rw [List.dropWhile_map, hcomp, dropTrailingWs_map f hf]

theorem length_dropWhile_le (p : α → Bool) (l : List α) :
    (l.dropWhile p).length ≤ l.length := by
  induction l with
  | nil => simp
  | cons c rest ih =>
    rw [List.dropWhile_cons]
    split
    · simp
      omega
    · simp

theorem dropWhile_dropTrailingWs (l : List Char)
    (h : l.dropWhile jsWhitespaceChar = l) :
    (dropTrailingWs l).dropWhile jsWhitespaceChar = dropTrailingWs l := by
  cases l with
  | nil => rfl
  | cons c t =>
    have hc : jsWhitespaceChar c = false := by
      by_contra hip
      have hc' : jsWhitespaceChar c = true := by
        cases hcc : jsWhitespaceChar c
        · exact absurd hcc hip
        · rfl
      rw [List.dropWhile_cons, hc'] at h
      have := length_dropWhile_le jsWhitespaceChar t
      have : (t.dropWhile jsWhitespaceChar).length = (c :: t).length :=
        congrArg List.length h
      simp at this
      omega
    simp only [dropTrailingWs]
    split
    · rfl
    · rw [List.dropWhile_cons, hc]
      simp

theorem jsTrimList_idem (l : List Char) :
    jsTrimList (jsTrimList l) = jsTrimList l := by
  unfold jsTrimList
  rw [dropWhile_dropTrailingWs _ (dropWhile_fix _ _), dropTrailingWs_idem]

theorem jsTrim_idem (s : String) : jsTrim (jsTrim s) = jsTrim s :=
  congrArg String.mk (jsTrimList_idem s.data)

theorem jsToLower_jsTrim (s : String) :
    jsToLower (jsTrim s) = jsTrim (jsToLower s) :=
  congrArg String.mk (jsTrimList_map jsCharToLower jsWhitespaceChar_toLower s.data).symm

theorem jsToUpper_jsTrim (s : String) :
    jsToUpper (jsTrim s) = jsTrim (jsToUpper s) :=
  congrArg String.mk (jsTrimList_map jsCharToUpper jsWhitespaceChar_toUpper s.data).symm

theorem jsToUpper_jsToUpper (s : String) :
    jsToUpper (jsToUpper s) = jsToUpper s := by
  have hcomp : (jsCharToUpper ∘ jsCharToUpper) = jsCharToUpper :=
    funext jsCharToUpper_toUpper
  unfold jsToUpper
  rw [List.map_map, hcomp]

/-- Normalisation stability for category / product-type keys: the key of
an element stored with a trimmed name equals the key of the raw name. -/
theorem catKey_norm (s : String) :
    jsTrim (jsToLower (jsTrim s)) = jsTrim (jsToLower s) := by
  rw [jsToLower_jsTrim, jsTrim_idem]

/-- Normalisation stability for unit keys: the key of an element stored
with an upper-cased trimmed abbreviation equals the key of the raw one. -/
theorem unitKey_norm (s : String) :
    jsTrim (jsToUpper (jsTrim (jsToUpper s))) = jsTrim (jsToUpper s) := by
  rw [jsToUpper_jsTrim, jsToUpper_jsToUpper, jsTrim_idem]

/-! ## The Mongoose email / phone `match` validators

The `User` and `Business` schemas validate emails against
`/^\w+([\.-]?\w+)*@\w+([\.-]?\w+)*(\.\w{2,3})+$/` and phones against
`/^[0-9+\-\s()]*$/`.  Whole-string matching of those regexes is decided
below by language membership. -/

/-- JS `\w`: ASCII letters, digits, underscore. -/
def isWordChar (c : Char) : Bool := c.isAlpha || c.isDigit || c = '_'

/-- Membership in the language of `\w+([\.-]?\w+)*`: word characters
interleaved with single `.`/`-` separators, starting and ending with a
word character.  The flag records whether the previous character was a
word character. -/
def nameRun : Bool → List Char → Bool
  | last, [] => last
  | last, c :: rest =>
    if isWordChar c then nameRun true rest
    else if (c = '.' || c = '-') && last then nameRun false rest
    else false

/-- Membership in the language of `\w+([\.-]?\w+)*` (one name part). -/
def namePart (l : List Char) : Bool := nameRun false l

/-- Membership in the language of `(\.\w{2,3})+`: one or more groups of a
dot followed by two or three word characters. -/
def tldGroups : List Char → Bool
  | ['.', a, b] => isWordChar a && isWordChar b
  | '.' :: a :: b :: c :: rest2 =>
    isWordChar a && isWordChar b &&
      (tldGroups (c :: rest2) || (isWordChar c && (rest2.isEmpty || tldGroups rest2)))
  | _ => false

/-- Membership in the language of `\w+([\.-]?\w+)*(\.\w{2,3})+` (the
domain part), decided by trying every split point. -/
def domainMatch (l : List Char) : Bool :=
  (List.range (l.length + 1)).any (fun i => namePart (l.take i) && tldGroups (l.drop i))

/-- Split a character list at its first `'@'`; `none` when there is no `'@'`. -/
def splitAtFirstAt : List Char → Option (List Char × List Char)
  | [] => none
  | '@' :: rest => some ([], rest)
  | c :: rest => (splitAtFirstAt rest).map (fun p => (c :: p.1, p.2))

/-- Whole-string match of the schema email regex
`/^\w+([\.-]?\w+)*@\w+([\.-]?\w+)*(\.\w{2,3})+$/`. -/
def emailValid (s : String) : Bool :=
  match splitAtFirstAt s.data with
  | some (loc, dom) => namePart loc && domainMatch dom
  | none => false

/-- Whole-string match of the `User` phone regex `/^[0-9+\-\s()]*$/`. -/
def phoneValid (s : String) : Bool :=
  s.data.all (fun c => c.isDigit || c = '+' || c = '-' || jsWhitespaceChar c ||
    c = '(' || c = ')')

/-! ## JS array duplicate detection

`updatePreferences` detects duplicates with
`keys.filter((k, index) => keys.indexOf(k) !== index)`. -/

/-- JS `Array.prototype.indexOf` (index of the first strictly-equal
element; the list length when absent, which the controller never hits
because it only queries members). -/
def jsIndexOf [DecidableEq α] (l : List α) (a : α) : Nat :=
  l.findIdx (fun x => decide (x = a))

/-- The list of elements whose first occurrence is at an earlier index:
`keys.filter((k, index) => keys.indexOf(k) !== index)`. -/
def jsDuplicates [DecidableEq α] (keys : List α) : List α :=
  (keys.enum.filter (fun p => jsIndexOf keys p.2 != p.1)).map (fun p => p.2)

theorem nodup_iff_jsIndexOf [DecidableEq α] (l : List α) :
    l.Nodup ↔ ∀ i (h : i < l.length), jsIndexOf l l[i] = i := by
  constructor
  · intro hnd i h
    unfold jsIndexOf
    rw [List.findIdx_eq h]
    refine ⟨by simp, ?_⟩
    intro j hji
    have hne : l[j] ≠ l[i] :=
      List.pairwise_iff_getElem.mp hnd j i (by omega) h hji
    simp [hne]
  · intro hfix
    refine List.pairwise_iff_getElem.mpr ?_
    intro i j hi hj hij heq
    have hfj := hfix j hj
    unfold jsIndexOf at hfj
    rw [List.findIdx_eq hj] at hfj
    have hcontra := hfj.2 i hij
    simp [heq] at hcontra

theorem jsDuplicates_eq_nil_iff [DecidableEq α] (l : List α) :
    jsDuplicates l = [] ↔ l.Nodup := by
  rw [nodup_iff_jsIndexOf]
  unfold jsDuplicates
  rw [List.map_eq_nil_iff, List.filter_eq_nil_iff]
  constructor
  · intro hall i h
    have hmem : (i, l[i]) ∈ l.enum := by
      rw [List.mem_iff_getElem]
      refine ⟨i, by simpa [List.enum_length] using h, ?_⟩
      simp [List.getElem_enum]
    have := hall _ hmem
    simpa using this
  · intro hfix p hp
    rw [List.mem_iff_getElem] at hp
    obtain ⟨n, hn, hpn⟩ := hp
    rw [List.enum_length] at hn
    have hpeq : p = (n, l[n]) := by
      rw [← hpn]
      simp [List.getElem_enum]
    subst hpeq
    simp [hfix n hn]

/-! ## Model of the external bcrypt primitive

The password-hashing library is external (out of scope per the spec); it
is modelled as an injective encoding that embeds the salt, so that "a
fresh random salt" is visible in the result and comparison recovers the
payload. -/

/-- `bcrypt.hash(pw, salt)`. -/
def bcryptHash (salt : Nat) (pw : String) : String :=
  "$2b$" ++ Nat.repr salt ++ "$" ++ pw

/-- `bcrypt.compare(candidate, hash)`: true iff `hash` is `bcryptHash`
of `candidate` under the salt embedded in `hash`. -/
def bcryptCompare (candidate hash : String) : Bool :=
  hash.data.take 4 == "$2b$".data &&
    ((hash.data.drop 4).dropWhile (fun c => c != '$')).drop 1 == candidate.data

/-! ## Data model

Documents of the `User` and `Business` Mongoose models.  Object ids and
dates are `Nat`.  Optional schema paths are `Option`; paths that Mongoose
always materialises (arrays, nested objects) are plain fields. -/

/-- An element of `preferences.categories` (Business schema). -/
structure Category where
  name : String
  description : String
  icon : String
  color : String
  isActive : Bool
  createdAt : Nat
  deriving Repr, DecidableEq

/-- An element of `preferences.units` (Business schema).  (`Unit` is taken
by Lean; the schema path is `units`.) -/
structure UnitDoc where
  name : String
  abbreviation : String
  type : String
  isActive : Bool
  createdAt : Nat
  deriving Repr, DecidableEq

/-- An element of `preferences.productTypes` (Business schema). -/
structure ProductType where
  name : String
  description : String
  requiresSerialNumber : Bool
  requiresExpiryDate : Bool
  trackInventory : Bool
  isActive : Bool
  createdAt : Nat
  deriving Repr, DecidableEq

/-- The embedded `preferences` sub-document.  Mongoose materialises the
three array paths on every document (defaulting to `[]`), so they are
total fields. -/
structure Preferences where
  categories : List Category
  units : List UnitDoc
  productTypes : List ProductType
  deriving Repr, DecidableEq

/-- The nested `address` object of the Business schema. -/
structure Address where
  street : Option String
  city : Option String
  state : Option String
  country : Option String
  postalCode : Option String
  deriving Repr, DecidableEq

/-- A `Business` document. -/
structure BusinessDoc where
  id : Nat
  name : String
  description : Option String
  industry : String
  email : Option String
  phone : Option String
  website : Option String
  address : Address
  registrationNumber : Option String
  taxId : Option String
  currency : String
  timezone : String
  preferences : Preferences
  owner : Nat
  isActive : Bool
  deriving Repr, DecidableEq

/-- A `User` document.  `passwordModified` models Mongoose's
`isModified('password')` dirty flag: `true` on a freshly constructed
document or after an assignment to `password`, cleared by a completed
save. -/
structure UserDoc where
  id : Nat
  firstName : String
  lastName : String
  email : String
  password : String
  phone : Option String
  business : Option Nat
  role : String
  isActive : Bool
  isEmailVerified : Bool
  lastLogin : Option Nat
  passwordModified : Bool
  deriving Repr, DecidableEq

/-- The persistent store: the two collections plus an id allocator. -/
structure Store where
  users : List UserDoc
  businesses : List BusinessDoc
  nextId : Nat
  deriving Repr, DecidableEq

/-! ## Schema enumerations and validators -/

def industryEnum : List String :=
  ["retail", "restaurant", "services", "manufacturing", "technology",
   "healthcare", "education", "real-estate", "finance", "other"]

def currencyEnum : List String := ["NGN", "USD", "EUR", "GBP"]

def unitTypeEnum : List String :=
  ["weight", "volume", "length", "quantity", "other"]

def roleEnum : List String := ["owner", "admin", "manager", "employee"]

/-- Validation of a `User` document (Mongoose `validateBeforeSave`):
required/maxlength on names, required+`match` on email, required+minlength
on password (the stored value, i.e. the hash), optional `match` on phone,
required business reference, role enumeration. -/
def userValidate (u : UserDoc) : Bool :=
  u.firstName ≠ "" && u.firstName.length ≤ 50 &&
  u.lastName ≠ "" && u.lastName.length ≤ 50 &&
  u.email ≠ "" && emailValid u.email &&
  u.password ≠ "" && 8 ≤ u.password.length &&
  (match u.phone with
   | some p => phoneValid p
   | none => true) &&
  u.business.isSome &&
  roleEnum.contains u.role

/-- Validation of one stored category element (name required). -/
def categoryValidate (c : Category) : Bool := c.name ≠ ""

/-- Validation of one stored unit element (name and abbreviation
required, type enumeration). -/
def unitValidate (u : UnitDoc) : Bool :=
  u.name ≠ "" && u.abbreviation ≠ "" && unitTypeEnum.contains u.type

/-- Validation of one stored product-type element (name required). -/
def productTypeValidate (p : ProductType) : Bool := p.name ≠ ""

/-- Validation of a `Business` document: required/maxlength on name,
maxlength on description, industry enumeration, `match` on email when
present, currency enumeration, and validation of every embedded
preferences element. -/
def businessValidate (b : BusinessDoc) : Bool :=
  b.name ≠ "" && b.name.length ≤ 100 &&
  (match b.description with
   | some d => d.length ≤ 500
   | none => true) &&
  industryEnum.contains b.industry &&
  (match b.email with
   | some e => emailValid e
   | none => true) &&
  currencyEnum.contains b.currency &&
  b.preferences.categories.all categoryValidate &&
  b.preferences.units.all unitValidate &&
  b.preferences.productTypes.all productTypeValidate

/-! ## Schema setters and save hooks -/

/-- The Mongoose setter chain of the email paths (`trim: true`,
`lowercase: true`), applied at assignment. -/
def emailSetter (s : String) : String := jsTrim (jsToLower s)

/-- `userSchema.pre('save')`: hash the password with a freshly generated
salt, but only when the password path has been modified. -/
def userPreSave (salt : Nat) (u : UserDoc) : UserDoc :=
  if u.passwordModified then
    { u with password := bcryptHash salt u.password }
  else u

/-- A completed `user.save()`: run the pre-save hook, then clear the
dirty flag on the persisted document. -/
def userSave (salt : Nat) (u : UserDoc) : UserDoc :=
  { userPreSave salt u with passwordModified := false }

/-- JS truthiness of a Mongoose nested object value: nested paths are
always materialised as objects, and objects are truthy. -/
def jsTruthyObject (_ : Preferences) : Bool := true

/-- JS truthiness of a Mongoose array value: array paths are always
materialised (defaulting to `[]`), and arrays — empty included — are
truthy. -/
def jsTruthyArray (_ : List α) : Bool := true

/-- The fixed default bootstrap preferences written by
`businessSchema.pre('save')` (with schema defaults `isActive = true`,
`createdAt = now` applied to every element). -/
def defaultPreferences (now : Nat) : Preferences :=
  { categories :=
      [{ name := "Electronics", description := "Electronic devices and accessories",
         icon := "💻", color := "#3b82f6", isActive := true, createdAt := now },
       { name := "Clothing", description := "Apparel and fashion items",
         icon := "👕", color := "#ec4899", isActive := true, createdAt := now },
       { name := "Food & Beverages", description := "Food items and drinks",
         icon := "🍔", color := "#f59e0b", isActive := true, createdAt := now }],
    units :=
      [{ name := "Piece", abbreviation := "PCS", type := "quantity",
         isActive := true, createdAt := now },
       { name := "Kilogram", abbreviation := "KG", type := "weight",
         isActive := true, createdAt := now },
       { name := "Liter", abbreviation := "L", type := "volume",
         isActive := true, createdAt := now },
       { name := "Dozen", abbreviation := "DZ", type := "quantity",
         isActive := true, createdAt := now }],
    productTypes :=
      [{ name := "Physical Product", description := "Tangible goods that can be shipped",
         requiresSerialNumber := false, requiresExpiryDate := false,
         trackInventory := true, isActive := true, createdAt := now },
       { name := "Perishable", description := "Products with expiry dates",
         requiresSerialNumber := false, requiresExpiryDate := true,
         trackInventory := true, isActive := true, createdAt := now },
       { name := "Service", description := "Non-physical services",
         requiresSerialNumber := false, requiresExpiryDate := false,
         trackInventory := false, isActive := true, createdAt := now }] }

/-- `businessSchema.pre('save')`: install the default bootstrap
preferences when the document is new and `(!this.preferences ||
!this.preferences.categories)`.  On a Mongoose document both operands of
the disjunction are truthy values (the nested object and the
auto-initialised array), which the truthiness helpers make explicit. -/
def businessPreSave (now : Nat) (isNewDoc : Bool) (b : BusinessDoc) : BusinessDoc :=
  if isNewDoc &&
      (!(jsTruthyObject b.preferences) || !(jsTruthyArray b.preferences.categories)) then
    { b with preferences := defaultPreferences now }
  else b

/-- A completed `business.save()`: pre-save hook then validation;
`none` models a `ValidationError` reject. -/
def businessSave (now : Nat) (isNewDoc : Bool) (b : BusinessDoc) : Option BusinessDoc :=
  let b' := businessPreSave now isNewDoc b
  if businessValidate b' then some b' else none

/-! ## The registration transaction (`authController.register`) -/

/-- The fields of a registration request body that `register`
destructures, plus `role`, which a caller may submit but the controller
never reads. -/
structure RegisterReq where
  firstName : Option String
  lastName : Option String
  email : Option String
  password : Option String
  phone : Option String
  businessName : Option String
  industry : Option String
  businessEmail : Option String
  businessPhone : Option String
  role : Option String
  deriving Repr, DecidableEq

/-- `!firstName || !lastName || !email || !password || !businessName`,
negated. -/
def requiredPresent (req : RegisterReq) : Bool :=
  jsTruthyS req.firstName && jsTruthyS req.lastName && jsTruthyS req.email &&
  jsTruthyS req.password && jsTruthyS req.businessName

/-- `User.findOne({ email })` hit: some stored account's email equals the
raw submitted email. -/
def emailTaken (st : Store) (email : String) : Bool :=
  st.users.any (fun u => u.email = email)

/-- The `new User({...})` document of step 1 (schema setters applied at
assignment; every path of a new document counts as modified). -/
def mkRegUser (st : Store) (req : RegisterReq) : UserDoc :=
  { id := st.nextId,
    firstName := jsTrim (req.firstName.getD ""),
    lastName := jsTrim (req.lastName.getD ""),
    email := emailSetter (req.email.getD ""),
    password := req.password.getD "",
    phone := req.phone.map jsTrim,
    business := none,
    role := "owner",
    isActive := true,
    isEmailVerified := false,
    lastLogin := none,
    passwordModified := true }

/-- The user document persisted by the first
`save({ validateBeforeSave: false })` (hook hashes the password). -/
def regUser1 (st : Store) (req : RegisterReq) (salt : Nat) : UserDoc :=
  userSave salt (mkRegUser st req)

/-- The `new Business({...})` document of step 2 after its pre-save hook
(defaults for industry/email/phone fall back per the controller;
preferences are the Mongoose-materialised empty collections). -/
def regBusiness (st : Store) (req : RegisterReq) (now : Nat) : BusinessDoc :=
  businessPreSave now true
    { id := st.nextId + 1,
      name := jsTrim (req.businessName.getD ""),
      description := none,
      industry := jsOrDefault req.industry "other",
      email := (jsOrS req.businessEmail req.email).map emailSetter,
      phone := (jsOrS req.businessPhone req.phone).map jsTrim,
      website := none,
      address := ⟨none, none, none, some "Nigeria", none⟩,
      registrationNumber := none,
      taxId := none,
      currency := "NGN",
      timezone := "Africa/Lagos",
      preferences := ⟨[], [], []⟩,
      owner := st.nextId,
      isActive := true }

/-- The user document persisted by the second
`save({ validateBeforeSave: true })` of step 3: business reference and
`lastLogin` set, password untouched. -/
def regUser2 (st : Store) (req : RegisterReq) (salt now : Nat) : UserDoc :=
  userSave salt
    { regUser1 st req salt with
      business := some (regBusiness st req now).id,
      lastLogin := some now }

/-- Outcome of `register` as visible in the HTTP response. -/
inductive RegStatus where
  | missingFields
  | duplicateEmail
  | validationError
  | created (userId businessId : Nat)
  deriving Repr, DecidableEq

/-- `authController.register`: required-field check, duplicate-email
check, then the three-step transactional creation.  Every failing branch
returns the store unchanged (the transaction aborts); only the final
branch commits. -/
def register (st : Store) (req : RegisterReq) (salt now : Nat) :
    RegStatus × Store :=
  if ¬ requiredPresent req then (.missingFields, st)
  else if emailTaken st (req.email.getD "") then (.duplicateEmail, st)
  else
    let tempUser := regUser1 st req salt
    let business := regBusiness st req now
    if ¬ businessValidate business then (.validationError, st)
    else
      let tempUser2 := regUser2 st req salt now
      if ¬ userValidate tempUser2 then (.validationError, st)
      else
        (.created tempUser.id business.id,
         { users := (st.users ++ [tempUser]).map
             (fun u => if u.id = tempUser2.id then tempUser2 else u),
           businesses := st.businesses ++ [business],
           nextId := st.nextId + 2 })

/-! ## Login (`authController.login`) -/

/-- Outcome of `login` as visible in the HTTP response. -/
inductive LoginStatus where
  | badRequest
  | invalidCredentials
  | deactivated
  | noBusiness
  | businessInactive
  | ok (token : Nat)
  deriving Repr, DecidableEq

/-- `authController.login`: input check, `findOne({email})` with password
selected and business populated, existence / active / password / business
checks in source order, then the `lastLogin` update and save.  The issued
token carries the account id. -/
def login (st : Store) (email password : Option String) (salt now : Nat) :
    LoginStatus × Store :=
  if !jsTruthyS email || !jsTruthyS password then (.badRequest, st)
  else
    match st.users.find? (fun u => u.email = email.getD "") with
    | none => (.invalidCredentials, st)
    | some user =>
      if ¬ user.isActive then (.deactivated, st)
      else if ¬ bcryptCompare (password.getD "") user.password then
        (.invalidCredentials, st)
      else
        match user.business.bind
            (fun bid => st.businesses.find? (fun b => b.id = bid)) with
        | none => (.noBusiness, st)
        | some business =>
          if ¬ business.isActive then (.businessInactive, st)
          else
            let user' := userSave salt { user with lastLogin := some now }
            (.ok user.id,
             { st with users :=
                 st.users.map (fun x => if x.id = user.id then user' else x) })

/-! ## Password rotation (`authController.updatePassword`) -/

/-- Outcome of `updatePassword`. -/
inductive PassStatus where
  | badRequest
  | tooShort
  | notFound
  | wrongPassword
  | validationError
  | ok (token : Nat)
  deriving Repr, DecidableEq

/-- `authController.updatePassword`: input check, minimum length 6 on the
new password, current-password verification, then assignment of the
plaintext (marking the path modified) and `user.save()`.  The save first
runs Mongoose's built-in validation — on the document as assigned, i.e.
with the plaintext in the password path, against the schema's
`minlength: 8` — and only then the hashing `pre('save')` hook; a
validation failure (for example a 6–7 character new password) throws a
`ValidationError` and persists nothing. -/
def updatePassword (st : Store) (userId : Nat)
    (currentPassword newPassword : Option String) (salt : Nat) :
    PassStatus × Store :=
  if !jsTruthyS currentPassword || !jsTruthyS newPassword then (.badRequest, st)
  else if (newPassword.getD "").length < 6 then (.tooShort, st)
  else
    match st.users.find? (fun u => u.id = userId) with
    | none => (.notFound, st)
    | some user =>
      if ¬ bcryptCompare (currentPassword.getD "") user.password then
        (.wrongPassword, st)
      else
        let updatedUser :=
          { user with password := newPassword.getD "", passwordModified := true }
        if ¬ userValidate updatedUser then (.validationError, st)
        else
          let user' := userSave salt updatedUser
          (.ok user.id,
           { st with users :=
               st.users.map (fun x => if x.id = user.id then user' else x) })

/-! ## Preferences replacement (`businessController.updatePreferences`) -/

/-- A submitted category element. -/
structure CatIn where
  name : Option String
  description : Option String
  icon : Option String
  color : Option String
  isActive : Option Bool
  createdAt : Option Nat
  deriving Repr, DecidableEq

/-- A submitted unit element. -/
structure UnitIn where
  name : Option String
  abbreviation : Option String
  type : Option String
  isActive : Option Bool
  createdAt : Option Nat
  deriving Repr, DecidableEq

/-- A submitted product-type element. -/
structure PtIn where
  name : Option String
  description : Option String
  requiresSerialNumber : Option Bool
  requiresExpiryDate : Option Bool
  trackInventory : Option Bool
  isActive : Option Bool
  createdAt : Option Nat
  deriving Repr, DecidableEq

/-- The request body of `PUT /api/business/preferences`: each collection
independently optional. -/
structure PrefsReq where
  categories : Option (List CatIn)
  units : Option (List UnitIn)
  productTypes : Option (List PtIn)
  deriving Repr, DecidableEq

/-- `c.name?.toLowerCase().trim()` — the normalised uniqueness key of a
submitted category. -/
def catInKey (c : CatIn) : Option String :=
  c.name.map (fun s => jsTrim (jsToLower s))

/-- `u.abbreviation?.toUpperCase().trim()` — the normalised uniqueness
key of a submitted unit. -/
def unitInKey (u : UnitIn) : Option String :=
  u.abbreviation.map (fun s => jsTrim (jsToUpper s))

/-- `pt.name?.toLowerCase().trim()` — the normalised uniqueness key of a
submitted product type. -/
def ptInKey (p : PtIn) : Option String :=
  p.name.map (fun s => jsTrim (jsToLower s))

/-- `!category.name || category.name.trim() === ''`. -/
def catNameMissing (c : CatIn) : Bool :=
  match c.name with
  | none => true
  | some s => jsTrim s = ""

/-- `!unit.name || unit.name.trim() === ''`. -/
def unitNameMissing (u : UnitIn) : Bool :=
  match u.name with
  | none => true
  | some s => jsTrim s = ""

/-- `!unit.abbreviation || unit.abbreviation.trim() === ''`. -/
def unitAbbrevMissing (u : UnitIn) : Bool :=
  match u.abbreviation with
  | none => true
  | some s => jsTrim s = ""

/-- `!productType.name || productType.name.trim() === ''`. -/
def ptNameMissing (p : PtIn) : Bool :=
  match p.name with
  | none => true
  | some s => jsTrim s = ""

/-- The per-element normalisation of a submitted category
(`categories.map(cat => ({...}))`). -/
def normCategory (now : Nat) (c : CatIn) : Category :=
  { name := jsTrim (c.name.getD ""),
    description := jsOrDefault (c.description.map jsTrim) "",
    icon := jsOrDefault (c.icon.map jsTrim) "📦",
    color := jsOrDefault (c.color.map jsTrim) "#6366f1",
    isActive := c.isActive.getD true,
    createdAt := c.createdAt.getD now }

/-- The per-element normalisation of a submitted unit. -/
def normUnitDoc (now : Nat) (u : UnitIn) : UnitDoc :=
  { name := jsTrim (u.name.getD ""),
    abbreviation := jsTrim (jsToUpper (u.abbreviation.getD "")),
    type := jsOrDefault u.type "quantity",
    isActive := u.isActive.getD true,
    createdAt := u.createdAt.getD now }

/-- The per-element normalisation of a submitted product type
(note the source's `|| false` on the two `requires-` booleans and the
`!== undefined ? _ : true` on `trackInventory`). -/
def normProductType (now : Nat) (p : PtIn) : ProductType :=
  { name := jsTrim (p.name.getD ""),
    description := jsOrDefault (p.description.map jsTrim) "",
    requiresSerialNumber := p.requiresSerialNumber.getD false,
    requiresExpiryDate := p.requiresExpiryDate.getD false,
    trackInventory := p.trackInventory.getD true,
    isActive := p.isActive.getD true,
    createdAt := p.createdAt.getD now }

/-- Outcome of `updatePreferences`. -/
inductive PrefStatus where
  | nothingToUpdate
  | duplicateCategoryNames (dups : List (Option String))
  | categoryNameRequired
  | duplicateUnitAbbreviations (dups : List (Option String))
  | unitNameRequired
  | unitAbbreviationRequired
  | duplicateProductTypeNames (dups : List (Option String))
  | productTypeNameRequired
  | validationError
  | updated
  deriving Repr, DecidableEq

/-- The per-unit required-field loop (name checked before abbreviation,
first offending element wins). -/
def findUnitFieldError : List UnitIn → Option PrefStatus
  | [] => none
  | u :: rest =>
    if unitNameMissing u then some .unitNameRequired
    else if unitAbbrevMissing u then some .unitAbbreviationRequired
    else findUnitFieldError rest

/-- The `if (categories) { ... }` block: duplicate check on the
normalised keys, required-name check, then in-memory replacement of the
collection. -/
def applyCategories (now : Nat) (b : BusinessDoc) :
    Option (List CatIn) → Except PrefStatus BusinessDoc
  | none => .ok b
  | some categories =>
    let categoryNames := categories.map catInKey
    let duplicates := jsDuplicates categoryNames
    if duplicates ≠ [] then .error (.duplicateCategoryNames duplicates)
    else if categories.any catNameMissing then .error .categoryNameRequired
    else .ok { b with preferences.categories := categories.map (normCategory now) }

/-- The `if (units) { ... }` block. -/
def applyUnits (now : Nat) (b : BusinessDoc) :
    Option (List UnitIn) → Except PrefStatus BusinessDoc
  | none => .ok b
  | some units =>
    let unitAbbreviations := units.map unitInKey
    let duplicates := jsDuplicates unitAbbreviations
    if duplicates ≠ [] then .error (.duplicateUnitAbbreviations duplicates)
    else
      match findUnitFieldError units with
      | some e => .error e
      | none => .ok { b with preferences.units := units.map (normUnitDoc now) }

/-- The `if (productTypes) { ... }` block. -/
def applyProductTypes (now : Nat) (b : BusinessDoc) :
    Option (List PtIn) → Except PrefStatus BusinessDoc
  | none => .ok b
  | some productTypes =>
    let typeNames := productTypes.map ptInKey
    let duplicates := jsDuplicates typeNames
    if duplicates ≠ [] then .error (.duplicateProductTypeNames duplicates)
    else if productTypes.any ptNameMissing then .error .productTypeNameRequired
    else .ok { b with preferences.productTypes := productTypes.map (normProductType now) }

/-- `businessController.updatePreferences` on the fetched business
document: at-least-one check, the three collection blocks in source
order (any failure returns before the save, leaving the stored document
unchanged), then a single `business.save()`. -/
def updatePreferences (b : BusinessDoc) (req : PrefsReq) (now : Nat) :
    PrefStatus × BusinessDoc :=
  if req.categories.isNone && req.units.isNone && req.productTypes.isNone then
    (.nothingToUpdate, b)
  else
    match applyCategories now b req.categories with
    | .error e => (e, b)
    | .ok b1 =>
      match applyUnits now b1 req.units with
      | .error e => (e, b)
      | .ok b2 =>
        match applyProductTypes now b2 req.productTypes with
        | .error e => (e, b)
        | .ok b3 =>
          match businessSave now false b3 with
          | none => (.validationError, b)
          | some b4 => (.updated, b4)

/-- The normalised uniqueness key of a stored category (lower-cased
trimmed name). -/
def categoryKey (c : Category) : String := jsTrim (jsToLower c.name)

/-- The normalised uniqueness key of a stored unit (upper-cased trimmed
abbreviation). -/
def unitKey (u : UnitDoc) : String := jsTrim (jsToUpper u.abbreviation)

/-- The normalised uniqueness key of a stored product type. -/
def productTypeKey (p : ProductType) : String := jsTrim (jsToLower p.name)

/-- The §3 invariant: within each stored collection the normalised keys
are pairwise distinct. -/
def prefsKeysDistinct (p : Preferences) : Prop :=
  (p.categories.map categoryKey).Nodup ∧ (p.units.map unitKey).Nodup ∧
    (p.productTypes.map productTypeKey).Nodup

instance (p : Preferences) : Decidable (prefsKeysDistinct p) := by
  unfold prefsKeysDistinct
  infer_instance

/-! ## Profile update (`businessController.updateProfile`) -/

/-- The request body of `PUT /api/business/profile`. -/
structure ProfileReq where
  name : Option String
  description : Option String
  industry : Option String
  email : Option String
  phone : Option String
  website : Option String
  address : Option Address
  currency : Option String
  timezone : Option String
  registrationNumber : Option String
  taxId : Option String
  deriving Repr, DecidableEq

/-- `{ ...business.address, ...address }`: keys present in the request
override, absent keys keep the stored value. -/
def mergeAddress (old : Address) (req : Address) : Address :=
  { street := req.street.or old.street,
    city := req.city.or old.city,
    state := req.state.or old.state,
    country := req.country.or old.country,
    postalCode := req.postalCode.or old.postalCode }

/-- `if (name) business.name = name;` (schema trim setter applies at
assignment). -/
def updProfileName (req : ProfileReq) (b : BusinessDoc) : BusinessDoc :=
  if jsTruthyS req.name then { b with name := jsTrim (req.name.getD "") } else b

/-- `if (description !== undefined) business.description = description;`. -/
def updProfileDescription (req : ProfileReq) (b : BusinessDoc) : BusinessDoc :=
  match req.description with
  | some d => { b with description := some (jsTrim d) }
  | none => b

/-- `if (industry) business.industry = industry;`. -/
def updProfileIndustry (req : ProfileReq) (b : BusinessDoc) : BusinessDoc :=
  if jsTruthyS req.industry then { b with industry := req.industry.getD "" } else b

/-- `if (email) business.email = email;` (lowercase/trim setters). -/
def updProfileEmail (req : ProfileReq) (b : BusinessDoc) : BusinessDoc :=
  if jsTruthyS req.email then
    { b with email := some (emailSetter (req.email.getD "")) }
  else b

/-- `if (phone !== undefined) business.phone = phone;`. -/
def updProfilePhone (req : ProfileReq) (b : BusinessDoc) : BusinessDoc :=
  match req.phone with
  | some p => { b with phone := some (jsTrim p) }
  | none => b

/-- `if (website !== undefined) business.website = website;`. -/
def updProfileWebsite (req : ProfileReq) (b : BusinessDoc) : BusinessDoc :=
  match req.website with
  | some w => { b with website := some (jsTrim w) }
  | none => b

/-- `if (address) business.address = { ...business.address, ...address };`. -/
def updProfileAddress (req : ProfileReq) (b : BusinessDoc) : BusinessDoc :=
  match req.address with
  | some a => { b with address := mergeAddress b.address a }
  | none => b

/-- `if (currency) business.currency = currency;`. -/
def updProfileCurrency (req : ProfileReq) (b : BusinessDoc) : BusinessDoc :=
  if jsTruthyS req.currency then { b with currency := req.currency.getD "" } else b

/-- `if (timezone) business.timezone = timezone;`. -/
def updProfileTimezone (req : ProfileReq) (b : BusinessDoc) : BusinessDoc :=
  if jsTruthyS req.timezone then { b with timezone := req.timezone.getD "" } else b

/-- `if (registrationNumber !== undefined) business.registrationNumber = registrationNumber;`. -/
def updProfileRegistrationNumber (req : ProfileReq) (b : BusinessDoc) : BusinessDoc :=
  match req.registrationNumber with
  | some r => { b with registrationNumber := some (jsTrim r) }
  | none => b

/-- `if (taxId !== undefined) business.taxId = taxId;`. -/
def updProfileTaxId (req : ProfileReq) (b : BusinessDoc) : BusinessDoc :=
  match req.taxId with
  | some t => { b with taxId := some (jsTrim t) }
  | none => b

/-- The field-update block of `updateProfile` (source lines 381-392): the
eleven guarded assignments in source order. -/
def updateProfile (b : BusinessDoc) (req : ProfileReq) : BusinessDoc :=
  updProfileTaxId req (updProfileRegistrationNumber req (updProfileTimezone req
    (updProfileCurrency req (updProfileAddress req (updProfileWebsite req
      (updProfilePhone req (updProfileEmail req (updProfileIndustry req
        (updProfileDescription req (updProfileName req b))))))))))

/-! ## Basic facts about the model -/

/-- Normal form of a completed user save. -/
theorem userSave_def (salt : Nat) (u : UserDoc) :
    userSave salt u =
      { u with
        password := if u.passwordModified then bcryptHash salt u.password else u.password,
        passwordModified := false } := by
  unfold userSave userPreSave
  cases hp : u.passwordModified <;> simp [hp]

/-- The guard of `businessSchema.pre('save')` compares the truthiness of
values that Mongoose always materialises, so the hook never installs the
default bootstrap preferences: it is the identity on every document. -/
theorem businessPreSave_self (now : Nat) (isNewDoc : Bool) (b : BusinessDoc) :
    businessPreSave now isNewDoc b = b := by
  unfold businessPreSave jsTruthyObject jsTruthyArray
  simp

theorem map_id_of_forAll_mem {l : List α} {f : α → α} (h : ∀ a ∈ l, f a = a) :
    l.map f = l := by
  induction l with
  | nil => rfl
  | cons c rest ih =>
    simp only [List.map_cons, h c (by simp)]
    rw [ih (fun a ha => h a (by simp [ha]))]

theorem regUser1_id (st : Store) (req : RegisterReq) (salt : Nat) :
    (regUser1 st req salt).id = st.nextId := by
  simp [regUser1, userSave_def, mkRegUser]

theorem regBusiness_id (st : Store) (req : RegisterReq) (now : Nat) :
    (regBusiness st req now).id = st.nextId + 1 := by
  rw [regBusiness, businessPreSave_self]

theorem regBusiness_owner (st : Store) (req : RegisterReq) (now : Nat) :
    (regBusiness st req now).owner = st.nextId := by
  rw [regBusiness, businessPreSave_self]

theorem regUser2_id (st : Store) (req : RegisterReq) (salt now : Nat) :
    (regUser2 st req salt now).id = st.nextId := by
  simp [regUser2, userSave_def, regUser1_id]

theorem regUser2_business (st : Store) (req : RegisterReq) (salt now : Nat) :
    (regUser2 st req salt now).business = some (regBusiness st req now).id := by
  simp [regUser2, userSave_def]

theorem regUser2_role (st : Store) (req : RegisterReq) (salt now : Nat) :
    (regUser2 st req salt now).role = "owner" := by
  simp [regUser2, userSave_def, regUser1, mkRegUser]

/-- Shape of a committed registration. -/
theorem register_success_eq (st : Store) (req : RegisterReq) (salt now : Nat)
    (h1 : requiredPresent req = true)
    (h2 : emailTaken st (req.email.getD "") = false)
    (h3 : businessValidate (regBusiness st req now) = true)
    (h4 : userValidate (regUser2 st req salt now) = true) :
    register st req salt now =
      (.created st.nextId (st.nextId + 1),
       { users := (st.users ++ [regUser1 st req salt]).map
           (fun u => if u.id = (regUser2 st req salt now).id
                     then regUser2 st req salt now else u),
         businesses := st.businesses ++ [regBusiness st req now],
         nextId := st.nextId + 2 }) := by
  unfold register
  simp [h1, h2, h3, h4, regUser1_id, regBusiness_id, regUser2_id]

/-- Inversion: a committed registration passed every check. -/
theorem register_created_inv (st : Store) (req : RegisterReq) (salt now : Nat)
    (uid bid : Nat)
    (hres : (register st req salt now).1 = .created uid bid) :
    requiredPresent req = true ∧ emailTaken st (req.email.getD "") = false ∧
    businessValidate (regBusiness st req now) = true ∧
    userValidate (regUser2 st req salt now) = true := by
  unfold register at hres
  split at hres
  · simp at hres
  · rename_i hq1
    split at hres
    · simp at hres
    · rename_i hq2
      dsimp only at hres
      split at hres
      · simp at hres
      · rename_i hq3
        split at hres
        · simp at hres
        · rename_i hq4
          refine ⟨by revert hq1; cases requiredPresent req <;> simp,
            by revert hq2; cases emailTaken st (req.email.getD "") <;> simp,
            by revert hq3; cases businessValidate (regBusiness st req now) <;> simp,
            by revert hq4; cases userValidate (regUser2 st req salt now) <;> simp⟩

/-! ## Claim theorems -/

/-- Demo registration request used by concrete witnesses (the spec §8
scenario). -/
def demoReq : RegisterReq :=
  { firstName := some "John", lastName := some "Doe",
    email := some "john@example.com", password := some "Password123",
    phone := none, businessName := some "John's Electronics",
    industry := some "retail", businessEmail := none, businessPhone := none,
    role := none }

/-- The empty store. -/
def emptyStore : Store := { users := [], businesses := [], nextId := 0 }

/-- C1.  For every registration request with all required fields present,
an untaken email, and saves that pass store validation, `register`
creates exactly one account and one business, with
`Account.business = Business.id` and `Business.owner = Account.id`; and
on any non-created outcome the store is returned unchanged (the
transaction aborts with nothing persisted). -/
theorem register_mutual_reference_atomic (st : Store) (req : RegisterReq)
    (salt now : Nat) :
    (requiredPresent req = true →
     emailTaken st (req.email.getD "") = false →
     businessValidate (regBusiness st req now) = true →
     userValidate (regUser2 st req salt now) = true →
     (∀ u ∈ st.users, u.id ≠ st.nextId) →
     register st req salt now =
       (.created st.nextId (st.nextId + 1),
        { users := st.users ++ [regUser2 st req salt now],
          businesses := st.businesses ++ [regBusiness st req now],
          nextId := st.nextId + 2 }) ∧
     (regUser2 st req salt now).business = some (regBusiness st req now).id ∧
     (regBusiness st req now).owner = (regUser2 st req salt now).id) ∧
    ((register st req salt now).2 = st ∨
     (register st req salt now).1 = .created st.nextId (st.nextId + 1)) := by
  constructor
  · intro h1 h2 h3 h4 h5
    have hmap : (st.users ++ [regUser1 st req salt]).map
        (fun u => if u.id = (regUser2 st req salt now).id
                  then regUser2 st req salt now else u) =
        st.users ++ [regUser2 st req salt now] := by
      rw [List.map_append]
      congr 1
      · apply map_id_of_forAll_mem
        intro a ha
        rw [regUser2_id]
        simp [h5 a ha]
      · simp [regUser1_id, regUser2_id]
    refine ⟨?_, by rw [regUser2_business], by rw [regBusiness_owner, regUser2_id]⟩
    unfold register
    simp only [h1, h2, h3, h4, not_true, if_false, Bool.false_eq_true, ite_false,
      not_false_iff, ite_true, if_true]
    simp only [hmap, regUser1_id, regBusiness_id]
  · unfold register
    split
    · simp
    · split
      · simp
      · dsimp only
        split
        · simp
        · split
          · simp
          · right
            simp [regUser1_id, regBusiness_id]

/-- Witness for C1 at the spec §8 scenario on the empty store. -/
theorem register_mutual_reference_atomic_witness :
    register emptyStore demoReq 5 100 =
      (.created 0 1,
       { users := [regUser2 emptyStore demoReq 5 100],
         businesses := [regBusiness emptyStore demoReq 100],
         nextId := 2 }) ∧
    (regUser2 emptyStore demoReq 5 100).business =
      some (regBusiness emptyStore demoReq 100).id := by
  have h := (register_mutual_reference_atomic emptyStore demoReq 5 100).1
    (by decide) (by decide) (by decide) (by decide)
    (by intro u hu; simp [emptyStore] at hu)
  exact ⟨h.1, h.2.1⟩

/-- A stored account as produced by the demo registration (hash of
`Password123` under salt 5, fetched clean from the store). -/
def demoUser : UserDoc :=
  { id := 0, firstName := "John", lastName := "Doe",
    email := "john@example.com", password := bcryptHash 5 "Password123",
    phone := none, business := some 1, role := "owner", isActive := true,
    isEmailVerified := false, lastLogin := some 100, passwordModified := false }

/-- The business of the demo registration. -/
def demoBusiness : BusinessDoc :=
  { id := 1, name := "John's Electronics", description := none,
    industry := "retail", email := some "john@example.com", phone := none,
    website := none, address := ⟨none, none, none, some "Nigeria", none⟩,
    registrationNumber := none, taxId := none, currency := "NGN",
    timezone := "Africa/Lagos", preferences := ⟨[], [], []⟩, owner := 0,
    isActive := true }

/-- The store after the demo registration. -/
def demoStore : Store :=
  { users := [demoUser], businesses := [demoBusiness], nextId := 2 }

/-- C2 counterexample: a registration request whose email equals a stored
account's email but which is missing `firstName` fails with the
missing-fields error, not the duplicate-email conflict error (the
required-field check runs first). -/
theorem register_duplicate_email_cex :
    ({ demoReq with firstName := none } : RegisterReq).email =
      some "john@example.com" ∧
    emailTaken demoStore "john@example.com" = true ∧
    (register demoStore { demoReq with firstName := none } 7 200).1 =
      RegStatus.missingFields ∧
    RegStatus.missingFields ≠ RegStatus.duplicateEmail := by
  refine ⟨rfl, by decide, ?_, by decide⟩
  decide

/-- C2 (amended: the request must contain the required fields, otherwise
the missing-fields check fires first).  A registration request with all
required fields present whose email is already taken fails with the
duplicate-email conflict error and returns the store unchanged, so the
store counts before and after are equal. -/
theorem register_duplicate_email_conflict (st : Store) (req : RegisterReq)
    (salt now : Nat)
    (h1 : requiredPresent req = true)
    (h2 : emailTaken st (req.email.getD "") = true) :
    register st req salt now = (.duplicateEmail, st) := by
  unfold register
  simp [h1, h2]

/-- Witness for C2's amended theorem: re-registering the demo request. -/
theorem register_duplicate_email_conflict_witness :
    register demoStore demoReq 7 200 = (RegStatus.duplicateEmail, demoStore) :=
  register_duplicate_email_conflict demoStore demoReq 7 200 (by decide) (by decide)

/-- C9.  `register` never reads a caller-supplied `role` (its outcome is
invariant under changing it), and on success the last-appended account —
the created one — has role `"owner"`. -/
theorem register_role_always_owner (st : Store) (req : RegisterReq)
    (salt now : Nat) :
    (∀ r, register st { req with role := r } salt now = register st req salt now) ∧
    (∀ uid bid, (register st req salt now).1 = .created uid bid →
      ((register st req salt now).2.users.getLast?).map UserDoc.role = some "owner") := by
  constructor
  · intro r
    rfl
  · intro uid bid hres
    obtain ⟨h1, h2, h3, h4⟩ := register_created_inv st req salt now uid bid hres
    rw [register_success_eq st req salt now h1 h2 h3 h4]
    simp only [List.map_append, List.map_cons, List.map_nil, List.getLast?_concat]
    rw [regUser1_id, regUser2_id]
    simp [regUser2_role]

/-- Witness for C9 at the demo scenario. -/
theorem register_role_always_owner_witness :
    register emptyStore { demoReq with role := some "admin" } 5 100 =
      register emptyStore demoReq 5 100 ∧
    ((register emptyStore demoReq 5 100).2.users.getLast?).map UserDoc.role =
      some "owner" := by
  refine ⟨(register_role_always_owner emptyStore demoReq 5 100).1 (some "admin"), ?_⟩
  exact (register_role_always_owner emptyStore demoReq 5 100).2 0 1 (by decide)

/-- C4 (code bug).  The guard of `businessSchema.pre('save')` tests the
truthiness of `this.preferences` and `this.preferences.categories`, both
of which Mongoose materialises (the empty array is truthy), so the hook
is the identity on every document and the fixed default bootstrap
preferences are never installed: the spec §8 scenario registration
leaves the business with three empty collections, not the 3/4/3
bootstrap set. -/
theorem register_bootstrap_defaults_never_applied :
    (∀ (now : Nat) (isNewDoc : Bool) (b : BusinessDoc),
      businessPreSave now isNewDoc b = b) ∧
    (register emptyStore demoReq 5 100).1 = RegStatus.created 0 1 ∧
    (register emptyStore demoReq 5 100).2.businesses.map BusinessDoc.preferences =
      [{ categories := [], units := [], productTypes := [] }] ∧
    defaultPreferences 100 ≠ { categories := [], units := [], productTypes := [] } := by
  refine ⟨businessPreSave_self, by decide, by decide, by decide⟩

/-- The demo store with its single account deactivated. -/
def inactiveStore : Store :=
  { users := [{ demoUser with isActive := false }],
    businesses := [demoBusiness], nextId := 2 }

/-- C6 counterexample: with a deactivated account, a login with a
non-matching password returns the deactivation message, while the same
password against a nonexistent email returns the generic
invalid-credentials message — the two runs are distinguishable. -/
theorem login_wrong_password_distinguishable_cex :
    bcryptCompare "wrong" (bcryptHash 5 "Password123") = false ∧
    (login inactiveStore (some "john@example.com") (some "wrong") 9 300).1 =
      LoginStatus.deactivated ∧
    (login inactiveStore (some "ghost@example.com") (some "wrong") 9 300).1 =
      LoginStatus.invalidCredentials ∧
    LoginStatus.deactivated ≠ LoginStatus.invalidCredentials := by
  refine ⟨by decide, by decide, by decide, by decide⟩

/-- C6 (amended: restricted to emails whose stored account, if any, is
active — the deactivated-account branch answers first otherwise).  When
every stored account carrying the submitted email is active and its hash
does not match the password, `login` returns the generic
invalid-credentials error and an unchanged store, for existing and
nonexistent emails alike — the two runs are indistinguishable. -/
theorem login_generic_invalid_credentials (st : Store)
    (email password : Option String) (salt now : Nat)
    (he : jsTruthyS email = true) (hp : jsTruthyS password = true)
    (h : ∀ u ∈ st.users, u.email = email.getD "" →
      u.isActive = true ∧ bcryptCompare (password.getD "") u.password = false) :
    login st email password salt now = (.invalidCredentials, st) := by
  unfold login
  rw [he, hp]
  simp only [Bool.not_true, Bool.or_self, Bool.false_eq_true, if_false]
  cases hf : st.users.find? (fun u => u.email = email.getD "") with
  | none => simp
  | some u =>
    have hmem := List.mem_of_find?_eq_some hf
    have hpred := List.find?_some hf
    simp only [decide_eq_true_eq] at hpred
    have hu := h u hmem hpred
    simp [hu.1, hu.2]

/-- Witness for C6's amended theorem: both runs against the demo store. -/
theorem login_generic_invalid_credentials_witness :
    login demoStore (some "john@example.com") (some "wrong") 9 300 =
      (LoginStatus.invalidCredentials, demoStore) ∧
    login demoStore (some "ghost@example.com") (some "wrong") 9 300 =
      (LoginStatus.invalidCredentials, demoStore) := by
  constructor
  · exact login_generic_invalid_credentials demoStore _ _ 9 300
      (by decide) (by decide) (by decide)
  · exact login_generic_invalid_credentials demoStore _ _ 9 300
      (by decide) (by decide) (by decide)

theorem map_congr_mem {l : List α} {f g : α → β} (h : ∀ a ∈ l, f a = g a) :
    l.map f = l.map g := by
  induction l with
  | nil => rfl
  | cons c rest ih =>
    simp only [List.map_cons, h c (by simp)]
    rw [ih (fun a ha => h a (by simp [ha]))]

/-- C8.  The stored secret hash is recomputed exactly when the plaintext
password path was modified: (i) a login — whose save touches only
`lastLogin` — leaves every stored `(id, password)` pair unchanged
(assuming the persisted documents are clean and ids are unique, as the
store keeps them); (ii) a password rotation whose save passes schema
validation — Mongoose validates the plaintext against `minlength: 8`
before the hashing hook — persists `bcryptHash salt newPassword`, the
hash of the new plaintext under the freshly generated salt; (iii) a
rotation whose save fails that validation (for example a 6–7 character
new password) is rejected with a validation error and persists nothing. -/
theorem secret_hash_recomputed_iff_modified :
    (∀ (st : Store) (email password : Option String) (salt now : Nat),
      (∀ u ∈ st.users, u.passwordModified = false) →
      (st.users.map UserDoc.id).Nodup →
      (login st email password salt now).2.users.map (fun u => (u.id, u.password)) =
        st.users.map (fun u => (u.id, u.password))) ∧
    (∀ (st : Store) (userId : Nat) (cur new : Option String) (salt : Nat)
       (u : UserDoc),
      jsTruthyS cur = true → jsTruthyS new = true →
      ¬ (new.getD "").length < 6 →
      st.users.find? (fun x => x.id = userId) = some u →
      bcryptCompare (cur.getD "") u.password = true →
      userValidate { u with password := new.getD "", passwordModified := true } = true →
      updatePassword st userId cur new salt =
        (.ok u.id,
         { st with users := st.users.map (fun x =>
             if x.id = u.id then
               userSave salt { u with password := new.getD "", passwordModified := true }
             else x) }) ∧
      (userSave salt { u with password := new.getD "", passwordModified := true }).password =
        bcryptHash salt (new.getD "")) ∧
    (∀ (st : Store) (userId : Nat) (cur new : Option String) (salt : Nat)
       (u : UserDoc),
      jsTruthyS cur = true → jsTruthyS new = true →
      ¬ (new.getD "").length < 6 →
      st.users.find? (fun x => x.id = userId) = some u →
      bcryptCompare (cur.getD "") u.password = true →
      userValidate { u with password := new.getD "", passwordModified := true } = false →
      updatePassword st userId cur new salt = (.validationError, st)) := by
  refine ⟨?_, ?_, ?_⟩
  · intro st email password salt now hclean hid
    unfold login
    split
    · rfl
    · cases hf : st.users.find? (fun u => u.email = email.getD "") with
      | none => rfl
      | some user =>
        have huser := List.mem_of_find?_eq_some hf
        dsimp only
        split
        · rfl
        · split
          · rfl
          · cases hb : user.business.bind
                (fun bid => st.businesses.find? (fun b => b.id = bid)) with
            | none => rfl
            | some business =>
              dsimp only
              split
              · rfl
              · rw [List.map_map]
                apply map_congr_mem
                intro x hx
                simp only [Function.comp]
                by_cases hxe : x.id = user.id
                · have hxu : x = user :=
                    List.inj_on_of_nodup_map hid hx huser hxe
                  subst hxu
                  simp [userSave_def, hclean x hx]
                · simp [hxe]
  · intro st userId cur new salt u hcur hnew hlen hf hcmp hval
    refine ⟨?_, by simp [userSave_def]⟩
    unfold updatePassword
    rw [hcur, hnew]
    simp only [Bool.not_true, Bool.or_self, Bool.false_eq_true, if_false,
      if_neg hlen, hf]
    simp [hcmp, hval]
  · intro st userId cur new salt u hcur hnew hlen hf hcmp hval
    unfold updatePassword
    rw [hcur, hnew]
    simp only [Bool.not_true, Bool.or_self, Bool.false_eq_true, if_false,
      if_neg hlen, hf]
    simp [hcmp, hval]

/-- Witness for C8: a login, a valid 8-character rotation, and a
6-character rotation rejected by schema validation, all on the demo
store. -/
theorem secret_hash_recomputed_iff_modified_witness :
    (login demoStore (some "john@example.com") (some "Password123") 9 300).2.users.map
        (fun u => (u.id, u.password)) =
      demoStore.users.map (fun u => (u.id, u.password)) ∧
    (userSave 11 { demoUser with password := "NewPass1",
                                 passwordModified := true }).password =
      bcryptHash 11 "NewPass1" ∧
    updatePassword demoStore 0 (some "Password123") (some "abcdef") 11 =
      (PassStatus.validationError, demoStore) := by
  refine ⟨?_, ?_, ?_⟩
  · exact secret_hash_recomputed_iff_modified.1 demoStore _ _ 9 300
      (by decide) (by decide)
  · exact (secret_hash_recomputed_iff_modified.2.1 demoStore 0
      (some "Password123") (some "NewPass1") 11 demoUser
      (by decide) (by decide) (by decide) (by decide) (by decide) (by decide)).2
  · exact secret_hash_recomputed_iff_modified.2.2 demoStore 0
      (some "Password123") (some "abcdef") 11 demoUser
      (by decide) (by decide) (by decide) (by decide) (by decide) (by decide)

/-! ## Inversion lemmas for the preferences blocks -/

theorem findUnitFieldError_none {us : List UnitIn}
    (h : findUnitFieldError us = none) :
    ∀ u ∈ us, unitNameMissing u = false ∧ unitAbbrevMissing u = false := by
  induction us with
  | nil => intro u hu; simp at hu
  | cons v rest ih =>
    unfold findUnitFieldError at h
    split at h
    · simp at h
    · split at h
      · simp at h
      · rename_i hn ha
        intro u hu
        rcases List.mem_cons.mp hu with rfl | hmem
        · exact ⟨by revert hn; cases unitNameMissing u <;> simp,
            by revert ha; cases unitAbbrevMissing u <;> simp⟩
        · exact ih h u hmem

theorem findUnitFieldError_some_ne {us : List UnitIn} {e : PrefStatus}
    (h : findUnitFieldError us = some e) : e ≠ .updated := by
  induction us with
  | nil => simp [findUnitFieldError] at h
  | cons v rest ih =>
    unfold findUnitFieldError at h
    split at h
    · cases h
      simp
    · split at h
      · cases h
        simp
      · exact ih h


theorem bool_not_eq_true {b : Bool} (h : ¬ b = true) : b = false := by
  cases b
  · rfl
  · exact absurd rfl h

theorem applyCategories_ok_inv {now : Nat} {b : BusinessDoc}
    {o : Option (List CatIn)} {b1 : BusinessDoc}
    (h : applyCategories now b o = .ok b1) :
    b1.preferences.units = b.preferences.units ∧
    b1.preferences.productTypes = b.preferences.productTypes ∧
    (b1 = b ∨ ∃ cats, o = some cats ∧
      b1.preferences.categories = cats.map (normCategory now) ∧
      jsDuplicates (cats.map catInKey) = [] ∧
      cats.any catNameMissing = false) := by
  cases o with
  | none =>
    simp only [applyCategories] at h
    cases h
    exact ⟨rfl, rfl, Or.inl rfl⟩
  | some cats =>
    simp only [applyCategories] at h
    by_cases hdup : jsDuplicates (cats.map catInKey) = []
    · rw [if_neg (not_not_intro hdup)] at h
      by_cases hmiss : cats.any catNameMissing = true
      · rw [if_pos hmiss] at h
        cases h
      · rw [if_neg hmiss] at h
        injection h with h'
        subst h'
        exact ⟨rfl, rfl, Or.inr ⟨cats, rfl, rfl, hdup, bool_not_eq_true hmiss⟩⟩
    · rw [if_pos hdup] at h
      cases h

theorem applyCategories_error_ne {now : Nat} {b : BusinessDoc}
    {o : Option (List CatIn)} {e : PrefStatus}
    (h : applyCategories now b o = .error e) : e ≠ .updated := by
  cases o with
  | none => simp [applyCategories] at h
  | some cats =>
    simp only [applyCategories] at h
    by_cases hdup : jsDuplicates (cats.map catInKey) = []
    · rw [if_neg (not_not_intro hdup)] at h
      by_cases hmiss : cats.any catNameMissing = true
      · rw [if_pos hmiss] at h
        injection h with h'
        subst h'
        simp
      · rw [if_neg hmiss] at h
        cases h
    · rw [if_pos hdup] at h
      injection h with h'
      subst h'
      simp

theorem applyUnits_ok_inv {now : Nat} {b : BusinessDoc}
    {o : Option (List UnitIn)} {b1 : BusinessDoc}
    (h : applyUnits now b o = .ok b1) :
    b1.preferences.categories = b.preferences.categories ∧
    b1.preferences.productTypes = b.preferences.productTypes ∧
    (b1 = b ∨ ∃ us, o = some us ∧
      b1.preferences.units = us.map (normUnitDoc now) ∧
      jsDuplicates (us.map unitInKey) = [] ∧
      findUnitFieldError us = none) := by
  cases o with
  | none =>
    simp only [applyUnits] at h
    cases h
    exact ⟨rfl, rfl, Or.inl rfl⟩
  | some us =>
    simp only [applyUnits] at h
    by_cases hdup : jsDuplicates (us.map unitInKey) = []
    · rw [if_neg (not_not_intro hdup)] at h
      cases hfind : findUnitFieldError us with
      | some e =>
        rw [hfind] at h
        cases h
      | none =>
        rw [hfind] at h
        injection h with h'
        subst h'
        exact ⟨rfl, rfl, Or.inr ⟨us, rfl, rfl, hdup, hfind⟩⟩
    · rw [if_pos hdup] at h
      cases h

theorem applyUnits_error_ne {now : Nat} {b : BusinessDoc}
    {o : Option (List UnitIn)} {e : PrefStatus}
    (h : applyUnits now b o = .error e) : e ≠ .updated := by
  cases o with
  | none => simp [applyUnits] at h
  | some us =>
    simp only [applyUnits] at h
    by_cases hdup : jsDuplicates (us.map unitInKey) = []
    · rw [if_neg (not_not_intro hdup)] at h
      cases hfind : findUnitFieldError us with
      | some e' =>
        rw [hfind] at h
        injection h with h'
        subst h'
        exact findUnitFieldError_some_ne hfind
      | none =>
        rw [hfind] at h
        cases h
    · rw [if_pos hdup] at h
      injection h with h'
      subst h'
      simp

theorem applyProductTypes_ok_inv {now : Nat} {b : BusinessDoc}
    {o : Option (List PtIn)} {b1 : BusinessDoc}
    (h : applyProductTypes now b o = .ok b1) :
    b1.preferences.categories = b.preferences.categories ∧
    b1.preferences.units = b.preferences.units ∧
    (b1 = b ∨ ∃ pts, o = some pts ∧
      b1.preferences.productTypes = pts.map (normProductType now) ∧
      jsDuplicates (pts.map ptInKey) = [] ∧
      pts.any ptNameMissing = false) := by
  cases o with
  | none =>
    simp only [applyProductTypes] at h
    cases h
    exact ⟨rfl, rfl, Or.inl rfl⟩
  | some pts =>
    simp only [applyProductTypes] at h
    by_cases hdup : jsDuplicates (pts.map ptInKey) = []
    · rw [if_neg (not_not_intro hdup)] at h
      by_cases hmiss : pts.any ptNameMissing = true
      · rw [if_pos hmiss] at h
        cases h
      · rw [if_neg hmiss] at h
        injection h with h'
        subst h'
        exact ⟨rfl, rfl, Or.inr ⟨pts, rfl, rfl, hdup, bool_not_eq_true hmiss⟩⟩
    · rw [if_pos hdup] at h
      cases h

theorem applyProductTypes_error_ne {now : Nat} {b : BusinessDoc}
    {o : Option (List PtIn)} {e : PrefStatus}
    (h : applyProductTypes now b o = .error e) : e ≠ .updated := by
  cases o with
  | none => simp [applyProductTypes] at h
  | some pts =>
    simp only [applyProductTypes] at h
    by_cases hdup : jsDuplicates (pts.map ptInKey) = []
    · rw [if_neg (not_not_intro hdup)] at h
      by_cases hmiss : pts.any ptNameMissing = true
      · rw [if_pos hmiss] at h
        injection h with h'
        subst h'
        simp
      · rw [if_neg hmiss] at h
        cases h
    · rw [if_pos hdup] at h
      injection h with h'
      subst h'
      simp

theorem businessSave_some_inv {now : Nat} {isNewDoc : Bool} {b b' : BusinessDoc}
    (h : businessSave now isNewDoc b = some b') :
    b' = b ∧ businessValidate b = true := by
  unfold businessSave at h
  rw [businessPreSave_self] at h
  by_cases hv : businessValidate b = true
  · rw [if_pos hv] at h
    injection h with h'
    exact ⟨h'.symm, hv⟩
  · rw [if_neg hv] at h
    cases h

theorem applyCategories_dup {now : Nat} {b : BusinessDoc} {cats : List CatIn}
    (hdup : jsDuplicates (cats.map catInKey) ≠ []) :
    applyCategories now b (some cats) =
      .error (.duplicateCategoryNames (jsDuplicates (cats.map catInKey))) := by
  simp only [applyCategories]
  rw [if_pos hdup]

theorem applyUnits_dup {now : Nat} {b : BusinessDoc} {us : List UnitIn}
    (hdup : jsDuplicates (us.map unitInKey) ≠ []) :
    applyUnits now b (some us) =
      .error (.duplicateUnitAbbreviations (jsDuplicates (us.map unitInKey))) := by
  simp only [applyUnits]
  rw [if_pos hdup]

theorem applyProductTypes_dup {now : Nat} {b : BusinessDoc} {pts : List PtIn}
    (hdup : jsDuplicates (pts.map ptInKey) ≠ []) :
    applyProductTypes now b (some pts) =
      .error (.duplicateProductTypeNames (jsDuplicates (pts.map ptInKey))) := by
  simp only [applyProductTypes]
  rw [if_pos hdup]

theorem updatePreferences_updated_inv {b : BusinessDoc} {req : PrefsReq} {now : Nat}
    (h : (updatePreferences b req now).1 = .updated) :
    ∃ b1 b2 b3, applyCategories now b req.categories = .ok b1 ∧
      applyUnits now b1 req.units = .ok b2 ∧
      applyProductTypes now b2 req.productTypes = .ok b3 ∧
      businessValidate b3 = true ∧
      updatePreferences b req now = (.updated, b3) := by
  unfold updatePreferences at h
  by_cases hg : (req.categories.isNone && req.units.isNone &&
      req.productTypes.isNone) = true
  · rw [if_pos hg] at h
    simp at h
  · rw [if_neg hg] at h
    cases hA : applyCategories now b req.categories with
    | error e =>
      rw [hA] at h
      simp at h
      exact absurd h (applyCategories_error_ne hA)
    | ok b1 =>
      rw [hA] at h
      dsimp only at h
      cases hU : applyUnits now b1 req.units with
      | error e =>
        rw [hU] at h
        simp at h
        exact absurd h (applyUnits_error_ne hU)
      | ok b2 =>
        rw [hU] at h
        dsimp only at h
        cases hP : applyProductTypes now b2 req.productTypes with
        | error e =>
          rw [hP] at h
          simp at h
          exact absurd h (applyProductTypes_error_ne hP)
        | ok b3 =>
          rw [hP] at h
          dsimp only at h
          cases hS : businessSave now false b3 with
          | none =>
            rw [hS] at h
            simp at h
          | some b4 =>
            obtain ⟨hb4, hval⟩ := businessSave_some_inv hS
            rw [hb4] at hS
            refine ⟨b1, b2, b3, rfl, hU, hP, hval, ?_⟩
            unfold updatePreferences
            rw [if_neg hg, hA]
            dsimp only
            rw [hU]
            dsimp only
            rw [hP]
            dsimp only
            rw [hS]

theorem updatePreferences_snd (b : BusinessDoc) (req : PrefsReq) (now : Nat) :
    (updatePreferences b req now).2 = b ∨
    (updatePreferences b req now).1 = .updated := by
  unfold updatePreferences
  by_cases hg : (req.categories.isNone && req.units.isNone &&
      req.productTypes.isNone) = true
  · rw [if_pos hg]
    left
    rfl
  · rw [if_neg hg]
    cases hA : applyCategories now b req.categories with
    | error e => left; rfl
    | ok b1 =>
      dsimp only
      cases hU : applyUnits now b1 req.units with
      | error e => left; rfl
      | ok b2 =>
        dsimp only
        cases hP : applyProductTypes now b2 req.productTypes with
        | error e => left; rfl
        | ok b3 =>
          dsimp only
          cases hS : businessSave now false b3 with
          | none => left; rfl
          | some b4 => right; rfl

theorem normCategory_keys_nodup (now : Nat) (cats : List CatIn)
    (hnames : cats.any catNameMissing = false)
    (hnd : (cats.map catInKey).Nodup) :
    ((cats.map (normCategory now)).map categoryKey).Nodup := by
  rw [List.map_map]
  have hpt : cats.map catInKey =
      (cats.map (categoryKey ∘ normCategory now)).map some := by
    rw [List.map_map]
    apply map_congr_mem
    intro c hc
    cases hn : c.name with
    | none =>
      exfalso
      have : cats.any catNameMissing = true :=
        List.any_eq_true.mpr ⟨c, hc, by simp [catNameMissing, hn]⟩
      rw [this] at hnames
      cases hnames
    | some s =>
      simp only [catInKey, hn, Option.map_some', Function.comp, categoryKey,
        normCategory, Option.getD_some]
      rw [catKey_norm]
  rw [hpt] at hnd
  exact List.Nodup.of_map some hnd

theorem normUnit_keys_nodup (now : Nat) (us : List UnitIn)
    (hfind : findUnitFieldError us = none)
    (hnd : (us.map unitInKey).Nodup) :
    ((us.map (normUnitDoc now)).map unitKey).Nodup := by
  rw [List.map_map]
  have hpt : us.map unitInKey =
      (us.map (unitKey ∘ normUnitDoc now)).map some := by
    rw [List.map_map]
    apply map_congr_mem
    intro u hu
    have habbr := (findUnitFieldError_none hfind u hu).2
    cases hn : u.abbreviation with
    | none =>
      rw [unitAbbrevMissing, hn] at habbr
      cases habbr
    | some s =>
      simp only [unitInKey, hn, Option.map_some', Function.comp, unitKey,
        normUnitDoc, Option.getD_some]
      rw [unitKey_norm]
  rw [hpt] at hnd
  exact List.Nodup.of_map some hnd

theorem normProductType_keys_nodup (now : Nat) (pts : List PtIn)
    (hnames : pts.any ptNameMissing = false)
    (hnd : (pts.map ptInKey).Nodup) :
    ((pts.map (normProductType now)).map productTypeKey).Nodup := by
  rw [List.map_map]
  have hpt : pts.map ptInKey =
      (pts.map (productTypeKey ∘ normProductType now)).map some := by
    rw [List.map_map]
    apply map_congr_mem
    intro c hc
    cases hn : c.name with
    | none =>
      exfalso
      have : pts.any ptNameMissing = true :=
        List.any_eq_true.mpr ⟨c, hc, by simp [ptNameMissing, hn]⟩
      rw [this] at hnames
      cases hnames
    | some s =>
      simp only [ptInKey, hn, Option.map_some', Function.comp, productTypeKey,
        normProductType, Option.getD_some]
      rw [catKey_norm]
  rw [hpt] at hnd
  exact List.Nodup.of_map some hnd

theorem applyCategories_some_ok_dup {now : Nat} {b : BusinessDoc}
    {cats : List CatIn} {b1 : BusinessDoc}
    (h : applyCategories now b (some cats) = .ok b1) :
    jsDuplicates (cats.map catInKey) = [] := by
  simp only [applyCategories] at h
  by_cases hdup : jsDuplicates (cats.map catInKey) = []
  · exact hdup
  · rw [if_pos hdup] at h
    cases h

theorem applyUnits_some_ok_dup {now : Nat} {b : BusinessDoc}
    {us : List UnitIn} {b1 : BusinessDoc}
    (h : applyUnits now b (some us) = .ok b1) :
    jsDuplicates (us.map unitInKey) = [] := by
  simp only [applyUnits] at h
  by_cases hdup : jsDuplicates (us.map unitInKey) = []
  · exact hdup
  · rw [if_pos hdup] at h
    cases h

theorem applyProductTypes_some_ok_dup {now : Nat} {b : BusinessDoc}
    {pts : List PtIn} {b1 : BusinessDoc}
    (h : applyProductTypes now b (some pts) = .ok b1) :
    jsDuplicates (pts.map ptInKey) = [] := by
  simp only [applyProductTypes] at h
  by_cases hdup : jsDuplicates (pts.map ptInKey) = []
  · exact hdup
  · rw [if_pos hdup] at h
    cases h

/-- C3.  Duplicate handling of the preferences Replace: (i) a supplied
categories collection with two coinciding normalised keys fails with the
offending values listed and the stored document unchanged; (ii)/(iv) the
same failure/unchanged behaviour for units and product types, whatever
earlier collections do; (iii)/(v) when the earlier collections pass, the
exact duplicate error with its offending values; (vi) a successful
Replace preserves the invariant that the normalised keys within each
stored collection are pairwise distinct. -/
theorem updatePreferences_key_uniqueness (b : BusinessDoc) (req : PrefsReq)
    (now : Nat) :
    (∀ cats, req.categories = some cats → ¬ (cats.map catInKey).Nodup →
      updatePreferences b req now =
        (.duplicateCategoryNames (jsDuplicates (cats.map catInKey)), b)) ∧
    (∀ us, req.units = some us → ¬ (us.map unitInKey).Nodup →
      (updatePreferences b req now).2 = b ∧
      (updatePreferences b req now).1 ≠ .updated) ∧
    (∀ us b1, req.units = some us →
      applyCategories now b req.categories = .ok b1 →
      ¬ (us.map unitInKey).Nodup →
      updatePreferences b req now =
        (.duplicateUnitAbbreviations (jsDuplicates (us.map unitInKey)), b)) ∧
    (∀ pts, req.productTypes = some pts → ¬ (pts.map ptInKey).Nodup →
      (updatePreferences b req now).2 = b ∧
      (updatePreferences b req now).1 ≠ .updated) ∧
    (∀ pts b1 b2, req.productTypes = some pts →
      applyCategories now b req.categories = .ok b1 →
      applyUnits now b1 req.units = .ok b2 →
      ¬ (pts.map ptInKey).Nodup →
      updatePreferences b req now =
        (.duplicateProductTypeNames (jsDuplicates (pts.map ptInKey)), b)) ∧
    (prefsKeysDistinct b.preferences →
      (updatePreferences b req now).1 = .updated →
      prefsKeysDistinct (updatePreferences b req now).2.preferences) := by
  refine ⟨?_, ?_, ?_, ?_, ?_, ?_⟩
  · intro cats hc hnd
    have hdup : jsDuplicates (cats.map catInKey) ≠ [] :=
      fun hnil => hnd ((jsDuplicates_eq_nil_iff _).mp hnil)
    unfold updatePreferences
    rw [if_neg (by simp [hc])]
    rw [hc, applyCategories_dup hdup]
  · intro us hu hnd
    have hne : (updatePreferences b req now).1 ≠ .updated := by
      intro hupd
      obtain ⟨b1, b2, b3, hA, hU, hP, hval, heq⟩ :=
        updatePreferences_updated_inv hupd
      rw [hu] at hU
      exact hnd ((jsDuplicates_eq_nil_iff _).mp (applyUnits_some_ok_dup hU))
    exact ⟨(updatePreferences_snd b req now).resolve_right hne, hne⟩
  · intro us b1 hu hA hnd
    have hdup : jsDuplicates (us.map unitInKey) ≠ [] :=
      fun hnil => hnd ((jsDuplicates_eq_nil_iff _).mp hnil)
    unfold updatePreferences
    rw [if_neg (by simp [hu])]
    rw [hA]
    dsimp only
    rw [hu, applyUnits_dup hdup]
  · intro pts hp hnd
    have hne : (updatePreferences b req now).1 ≠ .updated := by
      intro hupd
      obtain ⟨b1, b2, b3, hA, hU, hP, hval, heq⟩ :=
        updatePreferences_updated_inv hupd
      rw [hp] at hP
      exact hnd ((jsDuplicates_eq_nil_iff _).mp (applyProductTypes_some_ok_dup hP))
    exact ⟨(updatePreferences_snd b req now).resolve_right hne, hne⟩
  · intro pts b1 b2 hp hA hU hnd
    have hdup : jsDuplicates (pts.map ptInKey) ≠ [] :=
      fun hnil => hnd ((jsDuplicates_eq_nil_iff _).mp hnil)
    unfold updatePreferences
    rw [if_neg (by simp [hp])]
    rw [hA]
    dsimp only
    rw [hU]
    dsimp only
    rw [hp, applyProductTypes_dup hdup]
  · intro hpre hupd
    obtain ⟨b1, b2, b3, hA, hU, hP, hval, heq⟩ :=
      updatePreferences_updated_inv hupd
    rw [heq]
    obtain ⟨hAu, hAp, hAcases⟩ := applyCategories_ok_inv hA
    obtain ⟨hUc, hUp, hUcases⟩ := applyUnits_ok_inv hU
    obtain ⟨hPc, hPu, hPcases⟩ := applyProductTypes_ok_inv hP
    refine ⟨?_, ?_, ?_⟩
    · rw [show (PrefStatus.updated, b3).2 = b3 from rfl, hPc, hUc]
      rcases hAcases with rfl | ⟨cats, hco, hceq, hcdup, hcmiss⟩
      · exact hpre.1
      · rw [hceq]
        exact normCategory_keys_nodup now cats hcmiss
          ((jsDuplicates_eq_nil_iff _).mp hcdup)
    · rw [show (PrefStatus.updated, b3).2 = b3 from rfl, hPu]
      rcases hUcases with rfl | ⟨us, huo, hueq, hudup, hufind⟩
      · rw [hAu]
        exact hpre.2.1
      · rw [hueq]
        exact normUnit_keys_nodup now us hufind
          ((jsDuplicates_eq_nil_iff _).mp hudup)
    · rw [show (PrefStatus.updated, b3).2 = b3 from rfl]
      rcases hPcases with rfl | ⟨pts, hpo, hpeq, hpdup, hpmiss⟩
      · rw [hUp, hAp]
        exact hpre.2.2
      · rw [hpeq]
        exact normProductType_keys_nodup now pts hpmiss
          ((jsDuplicates_eq_nil_iff _).mp hpdup)

/-- A preferences request with two categories sharing the normalised key
`"electronics"`. -/
def dupCatReq : PrefsReq :=
  { categories := some
      [{ name := some "Electronics", description := none, icon := none,
         color := none, isActive := none, createdAt := none },
       { name := some " electronics ", description := none, icon := none,
         color := none, isActive := none, createdAt := none }],
    units := none, productTypes := none }

/-- A valid preferences request replacing units and product types. -/
def goodPrefsReq : PrefsReq :=
  { categories := none,
    units := some
      [{ name := some "Box", abbreviation := some "bx", type := none,
         isActive := none, createdAt := none }],
    productTypes := some
      [{ name := some "Service", description := none,
         requiresSerialNumber := none, requiresExpiryDate := none,
         trackInventory := none, isActive := none, createdAt := none }] }

/-- Witness for C3: a duplicate submission fails listing the offending
key and leaves the document unchanged; a valid Replace keeps the stored
keys pairwise distinct. -/
theorem updatePreferences_key_uniqueness_witness :
    updatePreferences demoBusiness dupCatReq 400 =
      (PrefStatus.duplicateCategoryNames [some "electronics"], demoBusiness) ∧
    prefsKeysDistinct
      (updatePreferences demoBusiness goodPrefsReq 400).2.preferences := by
  constructor
  · have h := (updatePreferences_key_uniqueness demoBusiness dupCatReq 400).1
      ((dupCatReq.categories).getD []) (by decide) (by decide)
    exact h.trans (by decide)
  · exact (updatePreferences_key_uniqueness demoBusiness goodPrefsReq 400).2.2.2.2.2
      (by decide) (by decide)

/-- C5.  Collections not supplied in a preferences Replace request are
identical in the stored business before and after the call, on success
and on failure alike. -/
theorem updatePreferences_frame_unsupplied (b : BusinessDoc) (req : PrefsReq)
    (now : Nat) :
    (req.categories = none →
      (updatePreferences b req now).2.preferences.categories =
        b.preferences.categories) ∧
    (req.units = none →
      (updatePreferences b req now).2.preferences.units = b.preferences.units) ∧
    (req.productTypes = none →
      (updatePreferences b req now).2.preferences.productTypes =
        b.preferences.productTypes) := by
  refine ⟨?_, ?_, ?_⟩
  · intro hc
    rcases updatePreferences_snd b req now with h | h
    · rw [h]
    · obtain ⟨b1, b2, b3, hA, hU, hP, hval, heq⟩ := updatePreferences_updated_inv h
      rw [heq]
      rw [hc] at hA
      simp only [applyCategories] at hA
      injection hA with hA'
      obtain ⟨hUc, _, _⟩ := applyUnits_ok_inv hU
      obtain ⟨hPc, _, _⟩ := applyProductTypes_ok_inv hP
      rw [show (PrefStatus.updated, b3).2 = b3 from rfl, hPc, hUc, ← hA']
  · intro hu
    rcases updatePreferences_snd b req now with h | h
    · rw [h]
    · obtain ⟨b1, b2, b3, hA, hU, hP, hval, heq⟩ := updatePreferences_updated_inv h
      rw [heq]
      rw [hu] at hU
      simp only [applyUnits] at hU
      injection hU with hU'
      obtain ⟨hAu, _, _⟩ := applyCategories_ok_inv hA
      obtain ⟨_, hPu, _⟩ := applyProductTypes_ok_inv hP
      rw [show (PrefStatus.updated, b3).2 = b3 from rfl, hPu, ← hU', hAu]
  · intro hp
    rcases updatePreferences_snd b req now with h | h
    · rw [h]
    · obtain ⟨b1, b2, b3, hA, hU, hP, hval, heq⟩ := updatePreferences_updated_inv h
      rw [heq]
      rw [hp] at hP
      simp only [applyProductTypes] at hP
      injection hP with hP'
      obtain ⟨_, hAp, _⟩ := applyCategories_ok_inv hA
      obtain ⟨_, hUp, _⟩ := applyUnits_ok_inv hU
      rw [show (PrefStatus.updated, b3).2 = b3 from rfl, ← hP', hUp, hAp]

/-- Witness for C5: the valid Replace of units and product types leaves
the unsupplied categories collection untouched. -/
theorem updatePreferences_frame_unsupplied_witness :
    (updatePreferences demoBusiness goodPrefsReq 400).2.preferences.categories =
      demoBusiness.preferences.categories :=
  (updatePreferences_frame_unsupplied demoBusiness goodPrefsReq 400).1 rfl

theorem applyProductTypes_some_ok_eq {now : Nat} {b : BusinessDoc}
    {pts : List PtIn} {b1 : BusinessDoc}
    (h : applyProductTypes now b (some pts) = .ok b1) :
    b1.preferences.productTypes = pts.map (normProductType now) := by
  simp only [applyProductTypes] at h
  by_cases hdup : jsDuplicates (pts.map ptInKey) = []
  · rw [if_neg (not_not_intro hdup)] at h
    by_cases hmiss : pts.any ptNameMissing = true
    · rw [if_pos hmiss] at h
      cases h
    · rw [if_neg hmiss] at h
      injection h with h'
      rw [← h']
  · rw [if_pos hdup] at h
    cases h

/-- A product-type submission with all three boolean fields omitted. -/
def ptOmit : PtIn :=
  { name := some "Gadget", description := none, requiresSerialNumber := none,
    requiresExpiryDate := none, trackInventory := none, isActive := none,
    createdAt := none }

/-- The preferences request submitting only that product type. -/
def ptOmitReq : PrefsReq :=
  { categories := none, units := none, productTypes := some [ptOmit] }

/-- C7 counterexample: a product type submitted with the three booleans
omitted is stored with `requiresSerialNumber = false`,
`requiresExpiryDate = false`, `trackInventory = true` — not with all
three `true` (both the controller's `|| false` defaults and the schema
defaults agree on `false`/`false`/`true`). -/
theorem productType_boolean_defaults_cex :
    (updatePreferences demoBusiness ptOmitReq 400).1 = PrefStatus.updated ∧
    (updatePreferences demoBusiness ptOmitReq 400).2.preferences.productTypes.map
        (fun p => (p.requiresSerialNumber, p.requiresExpiryDate, p.trackInventory)) =
      [(false, false, true)] ∧
    [((false : Bool), (false : Bool), (true : Bool))] ≠ [(true, true, true)] := by
  refine ⟨by decide, by decide, by decide⟩

/-- C7 (amended: the defaults are `false` for requires-serial-number and
requires-expiry-date and `true` for track-inventory).  A successful
Replace stores the normalised submissions, and normalisation gives an
element with omitted booleans exactly those defaults. -/
theorem updatePreferences_productType_defaults (b : BusinessDoc)
    (req : PrefsReq) (now : Nat) (pts : List PtIn)
    (hp : req.productTypes = some pts)
    (hupd : (updatePreferences b req now).1 = .updated) :
    (updatePreferences b req now).2.preferences.productTypes =
      pts.map (normProductType now) ∧
    (∀ p : PtIn, p.requiresSerialNumber = none → p.requiresExpiryDate = none →
      p.trackInventory = none →
      (normProductType now p).requiresSerialNumber = false ∧
      (normProductType now p).requiresExpiryDate = false ∧
      (normProductType now p).trackInventory = true) := by
  constructor
  · obtain ⟨b1, b2, b3, hA, hU, hP, hval, heq⟩ := updatePreferences_updated_inv hupd
    rw [heq]
    rw [hp] at hP
    rw [show (PrefStatus.updated, b3).2 = b3 from rfl]
    exact applyProductTypes_some_ok_eq hP
  · intro p h1 h2 h3
    simp [normProductType, h1, h2, h3]

/-- Witness for C7's amended theorem at the omitted-booleans submission. -/
theorem updatePreferences_productType_defaults_witness :
    (updatePreferences demoBusiness ptOmitReq 400).2.preferences.productTypes =
      [ptOmit].map (normProductType 400) ∧
    (normProductType 400 ptOmit).requiresSerialNumber = false ∧
    (normProductType 400 ptOmit).requiresExpiryDate = false ∧
    (normProductType 400 ptOmit).trackInventory = true := by
  have h := updatePreferences_productType_defaults demoBusiness ptOmitReq 400
    [ptOmit] (by decide) (by decide)
  exact ⟨h.1, h.2 ptOmit rfl rfl rfl⟩

/-! ## Frame facts for the profile update steps -/

theorem updProfileName_description (req : ProfileReq) (b : BusinessDoc) :
    (updProfileName req b).description = b.description := by
  unfold updProfileName
  split <;> rfl

theorem updProfileName_industry (req : ProfileReq) (b : BusinessDoc) :
    (updProfileName req b).industry = b.industry := by
  unfold updProfileName
  split <;> rfl

theorem updProfileName_email (req : ProfileReq) (b : BusinessDoc) :
    (updProfileName req b).email = b.email := by
  unfold updProfileName
  split <;> rfl

theorem updProfileName_phone (req : ProfileReq) (b : BusinessDoc) :
    (updProfileName req b).phone = b.phone := by
  unfold updProfileName
  split <;> rfl

theorem updProfileName_website (req : ProfileReq) (b : BusinessDoc) :
    (updProfileName req b).website = b.website := by
  unfold updProfileName
  split <;> rfl

theorem updProfileName_currency (req : ProfileReq) (b : BusinessDoc) :
    (updProfileName req b).currency = b.currency := by
  unfold updProfileName
  split <;> rfl

theorem updProfileName_timezone (req : ProfileReq) (b : BusinessDoc) :
    (updProfileName req b).timezone = b.timezone := by
  unfold updProfileName
  split <;> rfl

theorem updProfileName_registrationNumber (req : ProfileReq) (b : BusinessDoc) :
    (updProfileName req b).registrationNumber = b.registrationNumber := by
  unfold updProfileName
  split <;> rfl

theorem updProfileName_taxId (req : ProfileReq) (b : BusinessDoc) :
    (updProfileName req b).taxId = b.taxId := by
  unfold updProfileName
  split <;> rfl

theorem updProfileDescription_name (req : ProfileReq) (b : BusinessDoc) :
    (updProfileDescription req b).name = b.name := by
  unfold updProfileDescription
  split <;> rfl

theorem updProfileDescription_industry (req : ProfileReq) (b : BusinessDoc) :
    (updProfileDescription req b).industry = b.industry := by
  unfold updProfileDescription
  split <;> rfl

theorem updProfileDescription_email (req : ProfileReq) (b : BusinessDoc) :
    (updProfileDescription req b).email = b.email := by
  unfold updProfileDescription
  split <;> rfl

theorem updProfileDescription_phone (req : ProfileReq) (b : BusinessDoc) :
    (updProfileDescription req b).phone = b.phone := by
  unfold updProfileDescription
  split <;> rfl

theorem updProfileDescription_website (req : ProfileReq) (b : BusinessDoc) :
    (updProfileDescription req b).website = b.website := by
  unfold updProfileDescription
  split <;> rfl

theorem updProfileDescription_currency (req : ProfileReq) (b : BusinessDoc) :
    (updProfileDescription req b).currency = b.currency := by
  unfold updProfileDescription
  split <;> rfl

theorem updProfileDescription_timezone (req : ProfileReq) (b : BusinessDoc) :
    (updProfileDescription req b).timezone = b.timezone := by
  unfold updProfileDescription
  split <;> rfl

theorem updProfileDescription_registrationNumber (req : ProfileReq) (b : BusinessDoc) :
    (updProfileDescription req b).registrationNumber = b.registrationNumber := by
  unfold updProfileDescription
  split <;> rfl

theorem updProfileDescription_taxId (req : ProfileReq) (b : BusinessDoc) :
    (updProfileDescription req b).taxId = b.taxId := by
  unfold updProfileDescription
  split <;> rfl

theorem updProfileIndustry_name (req : ProfileReq) (b : BusinessDoc) :
    (updProfileIndustry req b).name = b.name := by
  unfold updProfileIndustry
  split <;> rfl

theorem updProfileIndustry_description (req : ProfileReq) (b : BusinessDoc) :
    (updProfileIndustry req b).description = b.description := by
  unfold updProfileIndustry
  split <;> rfl

theorem updProfileIndustry_email (req : ProfileReq) (b : BusinessDoc) :
    (updProfileIndustry req b).email = b.email := by
  unfold updProfileIndustry
  split <;> rfl

theorem updProfileIndustry_phone (req : ProfileReq) (b : BusinessDoc) :
    (updProfileIndustry req b).phone = b.phone := by
  unfold updProfileIndustry
  split <;> rfl

theorem updProfileIndustry_website (req : ProfileReq) (b : BusinessDoc) :
    (updProfileIndustry req b).website = b.website := by
  unfold updProfileIndustry
  split <;> rfl

theorem updProfileIndustry_currency (req : ProfileReq) (b : BusinessDoc) :
    (updProfileIndustry req b).currency = b.currency := by
  unfold updProfileIndustry
  split <;> rfl

theorem updProfileIndustry_timezone (req : ProfileReq) (b : BusinessDoc) :
    (updProfileIndustry req b).timezone = b.timezone := by
  unfold updProfileIndustry
  split <;> rfl

theorem updProfileIndustry_registrationNumber (req : ProfileReq) (b : BusinessDoc) :
    (updProfileIndustry req b).registrationNumber = b.registrationNumber := by
  unfold updProfileIndustry
  split <;> rfl

theorem updProfileIndustry_taxId (req : ProfileReq) (b : BusinessDoc) :
    (updProfileIndustry req b).taxId = b.taxId := by
  unfold updProfileIndustry
  split <;> rfl

theorem updProfileEmail_name (req : ProfileReq) (b : BusinessDoc) :
    (updProfileEmail req b).name = b.name := by
  unfold updProfileEmail
  split <;> rfl

theorem updProfileEmail_description (req : ProfileReq) (b : BusinessDoc) :
    (updProfileEmail req b).description = b.description := by
  unfold updProfileEmail
  split <;> rfl

theorem updProfileEmail_industry (req : ProfileReq) (b : BusinessDoc) :
    (updProfileEmail req b).industry = b.industry := by
  unfold updProfileEmail
  split <;> rfl

theorem updProfileEmail_phone (req : ProfileReq) (b : BusinessDoc) :
    (updProfileEmail req b).phone = b.phone := by
  unfold updProfileEmail
  split <;> rfl

theorem updProfileEmail_website (req : ProfileReq) (b : BusinessDoc) :
    (updProfileEmail req b).website = b.website := by
  unfold updProfileEmail
  split <;> rfl

theorem updProfileEmail_currency (req : ProfileReq) (b : BusinessDoc) :
    (updProfileEmail req b).currency = b.currency := by
  unfold updProfileEmail
  split <;> rfl

theorem updProfileEmail_timezone (req : ProfileReq) (b : BusinessDoc) :
    (updProfileEmail req b).timezone = b.timezone := by
  unfold updProfileEmail
  split <;> rfl

theorem updProfileEmail_registrationNumber (req : ProfileReq) (b : BusinessDoc) :
    (updProfileEmail req b).registrationNumber = b.registrationNumber := by
  unfold updProfileEmail
  split <;> rfl

theorem updProfileEmail_taxId (req : ProfileReq) (b : BusinessDoc) :
    (updProfileEmail req b).taxId = b.taxId := by
  unfold updProfileEmail
  split <;> rfl

theorem updProfilePhone_name (req : ProfileReq) (b : BusinessDoc) :
    (updProfilePhone req b).name = b.name := by
  unfold updProfilePhone
  split <;> rfl

theorem updProfilePhone_description (req : ProfileReq) (b : BusinessDoc) :
    (updProfilePhone req b).description = b.description := by
  unfold updProfilePhone
  split <;> rfl

theorem updProfilePhone_industry (req : ProfileReq) (b : BusinessDoc) :
    (updProfilePhone req b).industry = b.industry := by
  unfold updProfilePhone
  split <;> rfl

theorem updProfilePhone_email (req : ProfileReq) (b : BusinessDoc) :
    (updProfilePhone req b).email = b.email := by
  unfold updProfilePhone
  split <;> rfl

theorem updProfilePhone_website (req : ProfileReq) (b : BusinessDoc) :
    (updProfilePhone req b).website = b.website := by
  unfold updProfilePhone
  split <;> rfl

theorem updProfilePhone_currency (req : ProfileReq) (b : BusinessDoc) :
    (updProfilePhone req b).currency = b.currency := by
  unfold updProfilePhone
  split <;> rfl

theorem updProfilePhone_timezone (req : ProfileReq) (b : BusinessDoc) :
    (updProfilePhone req b).timezone = b.timezone := by
  unfold updProfilePhone
  split <;> rfl

theorem updProfilePhone_registrationNumber (req : ProfileReq) (b : BusinessDoc) :
    (updProfilePhone req b).registrationNumber = b.registrationNumber := by
  unfold updProfilePhone
  split <;> rfl

theorem updProfilePhone_taxId (req : ProfileReq) (b : BusinessDoc) :
    (updProfilePhone req b).taxId = b.taxId := by
  unfold updProfilePhone
  split <;> rfl

theorem updProfileWebsite_name (req : ProfileReq) (b : BusinessDoc) :
    (updProfileWebsite req b).name = b.name := by
  unfold updProfileWebsite
  split <;> rfl

theorem updProfileWebsite_description (req : ProfileReq) (b : BusinessDoc) :
    (updProfileWebsite req b).description = b.description := by
  unfold updProfileWebsite
  split <;> rfl

theorem updProfileWebsite_industry (req : ProfileReq) (b : BusinessDoc) :
    (updProfileWebsite req b).industry = b.industry := by
  unfold updProfileWebsite
  split <;> rfl

theorem updProfileWebsite_email (req : ProfileReq) (b : BusinessDoc) :
    (updProfileWebsite req b).email = b.email := by
  unfold updProfileWebsite
  split <;> rfl

theorem updProfileWebsite_phone (req : ProfileReq) (b : BusinessDoc) :
    (updProfileWebsite req b).phone = b.phone := by
  unfold updProfileWebsite
  split <;> rfl

theorem updProfileWebsite_currency (req : ProfileReq) (b : BusinessDoc) :
    (updProfileWebsite req b).currency = b.currency := by
  unfold updProfileWebsite
  split <;> rfl

theorem updProfileWebsite_timezone (req : ProfileReq) (b : BusinessDoc) :
    (updProfileWebsite req b).timezone = b.timezone := by
  unfold updProfileWebsite
  split <;> rfl

theorem updProfileWebsite_registrationNumber (req : ProfileReq) (b : BusinessDoc) :
    (updProfileWebsite req b).registrationNumber = b.registrationNumber := by
  unfold updProfileWebsite
  split <;> rfl

theorem updProfileWebsite_taxId (req : ProfileReq) (b : BusinessDoc) :
    (updProfileWebsite req b).taxId = b.taxId := by
  unfold updProfileWebsite
  split <;> rfl

theorem updProfileAddress_name (req : ProfileReq) (b : BusinessDoc) :
    (updProfileAddress req b).name = b.name := by
  unfold updProfileAddress
  split <;> rfl

theorem updProfileAddress_description (req : ProfileReq) (b : BusinessDoc) :
    (updProfileAddress req b).description = b.description := by
  unfold updProfileAddress
  split <;> rfl

theorem updProfileAddress_industry (req : ProfileReq) (b : BusinessDoc) :
    (updProfileAddress req b).industry = b.industry := by
  unfold updProfileAddress
  split <;> rfl

theorem updProfileAddress_email (req : ProfileReq) (b : BusinessDoc) :
    (updProfileAddress req b).email = b.email := by
  unfold updProfileAddress
  split <;> rfl

theorem updProfileAddress_phone (req : ProfileReq) (b : BusinessDoc) :
    (updProfileAddress req b).phone = b.phone := by
  unfold updProfileAddress
  split <;> rfl

theorem updProfileAddress_website (req : ProfileReq) (b : BusinessDoc) :
    (updProfileAddress req b).website = b.website := by
  unfold updProfileAddress
  split <;> rfl

theorem updProfileAddress_currency (req : ProfileReq) (b : BusinessDoc) :
    (updProfileAddress req b).currency = b.currency := by
  unfold updProfileAddress
  split <;> rfl

theorem updProfileAddress_timezone (req : ProfileReq) (b : BusinessDoc) :
    (updProfileAddress req b).timezone = b.timezone := by
  unfold updProfileAddress
  split <;> rfl

theorem updProfileAddress_registrationNumber (req : ProfileReq) (b : BusinessDoc) :
    (updProfileAddress req b).registrationNumber = b.registrationNumber := by
  unfold updProfileAddress
  split <;> rfl

theorem updProfileAddress_taxId (req : ProfileReq) (b : BusinessDoc) :
    (updProfileAddress req b).taxId = b.taxId := by
  unfold updProfileAddress
  split <;> rfl

theorem updProfileCurrency_name (req : ProfileReq) (b : BusinessDoc) :
    (updProfileCurrency req b).name = b.name := by
  unfold updProfileCurrency
  split <;> rfl

theorem updProfileCurrency_description (req : ProfileReq) (b : BusinessDoc) :
    (updProfileCurrency req b).description = b.description := by
  unfold updProfileCurrency
  split <;> rfl

theorem updProfileCurrency_industry (req : ProfileReq) (b : BusinessDoc) :
    (updProfileCurrency req b).industry = b.industry := by
  unfold updProfileCurrency
  split <;> rfl

theorem updProfileCurrency_email (req : ProfileReq) (b : BusinessDoc) :
    (updProfileCurrency req b).email = b.email := by
  unfold updProfileCurrency
  split <;> rfl

theorem updProfileCurrency_phone (req : ProfileReq) (b : BusinessDoc) :
    (updProfileCurrency req b).phone = b.phone := by
  unfold updProfileCurrency
  split <;> rfl

theorem updProfileCurrency_website (req : ProfileReq) (b : BusinessDoc) :
    (updProfileCurrency req b).website = b.website := by
  unfold updProfileCurrency
  split <;> rfl

theorem updProfileCurrency_timezone (req : ProfileReq) (b : BusinessDoc) :
    (updProfileCurrency req b).timezone = b.timezone := by
  unfold updProfileCurrency
  split <;> rfl

theorem updProfileCurrency_registrationNumber (req : ProfileReq) (b : BusinessDoc) :
    (updProfileCurrency req b).registrationNumber = b.registrationNumber := by
  unfold updProfileCurrency
  split <;> rfl

theorem updProfileCurrency_taxId (req : ProfileReq) (b : BusinessDoc) :
    (updProfileCurrency req b).taxId = b.taxId := by
  unfold updProfileCurrency
  split <;> rfl

theorem updProfileTimezone_name (req : ProfileReq) (b : BusinessDoc) :
    (updProfileTimezone req b).name = b.name := by
  unfold updProfileTimezone
  split <;> rfl

theorem updProfileTimezone_description (req : ProfileReq) (b : BusinessDoc) :
    (updProfileTimezone req b).description = b.description := by
  unfold updProfileTimezone
  split <;> rfl

theorem updProfileTimezone_industry (req : ProfileReq) (b : BusinessDoc) :
    (updProfileTimezone req b).industry = b.industry := by
  unfold updProfileTimezone
  split <;> rfl

theorem updProfileTimezone_email (req : ProfileReq) (b : BusinessDoc) :
    (updProfileTimezone req b).email = b.email := by
  unfold updProfileTimezone
  split <;> rfl

theorem updProfileTimezone_phone (req : ProfileReq) (b : BusinessDoc) :
    (updProfileTimezone req b).phone = b.phone := by
  unfold updProfileTimezone
  split <;> rfl

theorem updProfileTimezone_website (req : ProfileReq) (b : BusinessDoc) :
    (updProfileTimezone req b).website = b.website := by
  unfold updProfileTimezone
  split <;> rfl

theorem updProfileTimezone_currency (req : ProfileReq) (b : BusinessDoc) :
    (updProfileTimezone req b).currency = b.currency := by
  unfold updProfileTimezone
  split <;> rfl

theorem updProfileTimezone_registrationNumber (req : ProfileReq) (b : BusinessDoc) :
    (updProfileTimezone req b).registrationNumber = b.registrationNumber := by
  unfold updProfileTimezone
  split <;> rfl

theorem updProfileTimezone_taxId (req : ProfileReq) (b : BusinessDoc) :
    (updProfileTimezone req b).taxId = b.taxId := by
  unfold updProfileTimezone
  split <;> rfl

theorem updProfileRegistrationNumber_name (req : ProfileReq) (b : BusinessDoc) :
    (updProfileRegistrationNumber req b).name = b.name := by
  unfold updProfileRegistrationNumber
  split <;> rfl

theorem updProfileRegistrationNumber_description (req : ProfileReq) (b : BusinessDoc) :
    (updProfileRegistrationNumber req b).description = b.description := by
  unfold updProfileRegistrationNumber
  split <;> rfl

theorem updProfileRegistrationNumber_industry (req : ProfileReq) (b : BusinessDoc) :
    (updProfileRegistrationNumber req b).industry = b.industry := by
  unfold updProfileRegistrationNumber
  split <;> rfl

theorem updProfileRegistrationNumber_email (req : ProfileReq) (b : BusinessDoc) :
    (updProfileRegistrationNumber req b).email = b.email := by
  unfold updProfileRegistrationNumber
  split <;> rfl

theorem updProfileRegistrationNumber_phone (req : ProfileReq) (b : BusinessDoc) :
    (updProfileRegistrationNumber req b).phone = b.phone := by
  unfold updProfileRegistrationNumber
  split <;> rfl

theorem updProfileRegistrationNumber_website (req : ProfileReq) (b : BusinessDoc) :
    (updProfileRegistrationNumber req b).website = b.website := by
  unfold updProfileRegistrationNumber
  split <;> rfl

theorem updProfileRegistrationNumber_currency (req : ProfileReq) (b : BusinessDoc) :
    (updProfileRegistrationNumber req b).currency = b.currency := by
  unfold updProfileRegistrationNumber
  split <;> rfl

theorem updProfileRegistrationNumber_timezone (req : ProfileReq) (b : BusinessDoc) :
    (updProfileRegistrationNumber req b).timezone = b.timezone := by
  unfold updProfileRegistrationNumber
  split <;> rfl

theorem updProfileRegistrationNumber_taxId (req : ProfileReq) (b : BusinessDoc) :
    (updProfileRegistrationNumber req b).taxId = b.taxId := by
  unfold updProfileRegistrationNumber
  split <;> rfl

theorem updProfileTaxId_name (req : ProfileReq) (b : BusinessDoc) :
    (updProfileTaxId req b).name = b.name := by
  unfold updProfileTaxId
  split <;> rfl

theorem updProfileTaxId_description (req : ProfileReq) (b : BusinessDoc) :
    (updProfileTaxId req b).description = b.description := by
  unfold updProfileTaxId
  split <;> rfl

theorem updProfileTaxId_industry (req : ProfileReq) (b : BusinessDoc) :
    (updProfileTaxId req b).industry = b.industry := by
  unfold updProfileTaxId
  split <;> rfl

theorem updProfileTaxId_email (req : ProfileReq) (b : BusinessDoc) :
    (updProfileTaxId req b).email = b.email := by
  unfold updProfileTaxId
  split <;> rfl

theorem updProfileTaxId_phone (req : ProfileReq) (b : BusinessDoc) :
    (updProfileTaxId req b).phone = b.phone := by
  unfold updProfileTaxId
  split <;> rfl

theorem updProfileTaxId_website (req : ProfileReq) (b : BusinessDoc) :
    (updProfileTaxId req b).website = b.website := by
  unfold updProfileTaxId
  split <;> rfl

theorem updProfileTaxId_currency (req : ProfileReq) (b : BusinessDoc) :
    (updProfileTaxId req b).currency = b.currency := by
  unfold updProfileTaxId
  split <;> rfl

theorem updProfileTaxId_timezone (req : ProfileReq) (b : BusinessDoc) :
    (updProfileTaxId req b).timezone = b.timezone := by
  unfold updProfileTaxId
  split <;> rfl

theorem updProfileTaxId_registrationNumber (req : ProfileReq) (b : BusinessDoc) :
    (updProfileTaxId req b).registrationNumber = b.registrationNumber := by
  unfold updProfileTaxId
  split <;> rfl

theorem updProfileName_self_false (req : ProfileReq) (b : BusinessDoc)
    (h : jsTruthyS req.name = false) :
    (updProfileName req b).name = b.name := by
  unfold updProfileName
  rw [if_neg (by simp [h])]

theorem updProfileDescription_self_some (req : ProfileReq) (b : BusinessDoc)
    (d : String) (h : req.description = some d) :
    (updProfileDescription req b).description = some (jsTrim d) := by
  unfold updProfileDescription
  rw [h]

theorem updProfileDescription_self_none (req : ProfileReq) (b : BusinessDoc)
    (h : req.description = none) :
    (updProfileDescription req b).description = b.description := by
  unfold updProfileDescription
  rw [h]

theorem updProfileIndustry_self_false (req : ProfileReq) (b : BusinessDoc)
    (h : jsTruthyS req.industry = false) :
    (updProfileIndustry req b).industry = b.industry := by
  unfold updProfileIndustry
  rw [if_neg (by simp [h])]

theorem updProfileEmail_self_false (req : ProfileReq) (b : BusinessDoc)
    (h : jsTruthyS req.email = false) :
    (updProfileEmail req b).email = b.email := by
  unfold updProfileEmail
  rw [if_neg (by simp [h])]

theorem updProfilePhone_self_some (req : ProfileReq) (b : BusinessDoc)
    (d : String) (h : req.phone = some d) :
    (updProfilePhone req b).phone = some (jsTrim d) := by
  unfold updProfilePhone
  rw [h]

theorem updProfilePhone_self_none (req : ProfileReq) (b : BusinessDoc)
    (h : req.phone = none) :
    (updProfilePhone req b).phone = b.phone := by
  unfold updProfilePhone
  rw [h]

theorem updProfileWebsite_self_some (req : ProfileReq) (b : BusinessDoc)
    (d : String) (h : req.website = some d) :
    (updProfileWebsite req b).website = some (jsTrim d) := by
  unfold updProfileWebsite
  rw [h]

theorem updProfileWebsite_self_none (req : ProfileReq) (b : BusinessDoc)
    (h : req.website = none) :
    (updProfileWebsite req b).website = b.website := by
  unfold updProfileWebsite
  rw [h]

theorem updProfileCurrency_self_false (req : ProfileReq) (b : BusinessDoc)
    (h : jsTruthyS req.currency = false) :
    (updProfileCurrency req b).currency = b.currency := by
  unfold updProfileCurrency
  rw [if_neg (by simp [h])]

theorem updProfileTimezone_self_false (req : ProfileReq) (b : BusinessDoc)
    (h : jsTruthyS req.timezone = false) :
    (updProfileTimezone req b).timezone = b.timezone := by
  unfold updProfileTimezone
  rw [if_neg (by simp [h])]

theorem updProfileRegistrationNumber_self_some (req : ProfileReq) (b : BusinessDoc)
    (d : String) (h : req.registrationNumber = some d) :
    (updProfileRegistrationNumber req b).registrationNumber = some (jsTrim d) := by
  unfold updProfileRegistrationNumber
  rw [h]

theorem updProfileRegistrationNumber_self_none (req : ProfileReq) (b : BusinessDoc)
    (h : req.registrationNumber = none) :
    (updProfileRegistrationNumber req b).registrationNumber = b.registrationNumber := by
  unfold updProfileRegistrationNumber
  rw [h]

theorem updProfileTaxId_self_some (req : ProfileReq) (b : BusinessDoc)
    (d : String) (h : req.taxId = some d) :
    (updProfileTaxId req b).taxId = some (jsTrim d) := by
  unfold updProfileTaxId
  rw [h]

theorem updProfileTaxId_self_none (req : ProfileReq) (b : BusinessDoc)
    (h : req.taxId = none) :
    (updProfileTaxId req b).taxId = b.taxId := by
  unfold updProfileTaxId
  rw [h]

/-- C10.  Field handling of the business-profile update: name, industry,
email, currency and timezone are guarded by JS truthiness, so supplying
the empty string (or omitting the field) leaves the stored value
unchanged; description, phone, website, registrationNumber and taxId are
guarded by `!== undefined`, so the empty string overwrites the stored
value while an absent field leaves it unchanged. -/
theorem updateProfile_field_frame (b : BusinessDoc) (req : ProfileReq) :
    ((req.name = some "" ∨ req.name = none) →
      (updateProfile b req).name = b.name) ∧
    ((req.industry = some "" ∨ req.industry = none) →
      (updateProfile b req).industry = b.industry) ∧
    ((req.email = some "" ∨ req.email = none) →
      (updateProfile b req).email = b.email) ∧
    ((req.currency = some "" ∨ req.currency = none) →
      (updateProfile b req).currency = b.currency) ∧
    ((req.timezone = some "" ∨ req.timezone = none) →
      (updateProfile b req).timezone = b.timezone) ∧
    (req.description = some "" → (updateProfile b req).description = some "") ∧
    (req.description = none → (updateProfile b req).description = b.description) ∧
    (req.phone = some "" → (updateProfile b req).phone = some "") ∧
    (req.phone = none → (updateProfile b req).phone = b.phone) ∧
    (req.website = some "" → (updateProfile b req).website = some "") ∧
    (req.website = none → (updateProfile b req).website = b.website) ∧
    (req.registrationNumber = some "" → (updateProfile b req).registrationNumber = some "") ∧
    (req.registrationNumber = none → (updateProfile b req).registrationNumber = b.registrationNumber) ∧
    (req.taxId = some "" → (updateProfile b req).taxId = some "") ∧
    (req.taxId = none → (updateProfile b req).taxId = b.taxId) := by
  refine ⟨?_, ?_, ?_, ?_, ?_, ?_, ?_, ?_, ?_, ?_, ?_, ?_, ?_, ?_, ?_⟩
  · intro h
    have hf : jsTruthyS req.name = false := by
      rcases h with h | h <;> rw [h] <;> rfl
    unfold updateProfile
    simp only [updProfileDescription_name, updProfileIndustry_name, updProfileEmail_name, updProfilePhone_name, updProfileWebsite_name, updProfileAddress_name, updProfileCurrency_name, updProfileTimezone_name, updProfileRegistrationNumber_name, updProfileTaxId_name, updProfileName_self_false req _ hf]
  · intro h
    have hf : jsTruthyS req.industry = false := by
      rcases h with h | h <;> rw [h] <;> rfl
    unfold updateProfile
    simp only [updProfileName_industry, updProfileDescription_industry, updProfileEmail_industry, updProfilePhone_industry, updProfileWebsite_industry, updProfileAddress_industry, updProfileCurrency_industry, updProfileTimezone_industry, updProfileRegistrationNumber_industry, updProfileTaxId_industry, updProfileIndustry_self_false req _ hf]
  · intro h
    have hf : jsTruthyS req.email = false := by
      rcases h with h | h <;> rw [h] <;> rfl
    unfold updateProfile
    simp only [updProfileName_email, updProfileDescription_email, updProfileIndustry_email, updProfilePhone_email, updProfileWebsite_email, updProfileAddress_email, updProfileCurrency_email, updProfileTimezone_email, updProfileRegistrationNumber_email, updProfileTaxId_email, updProfileEmail_self_false req _ hf]
  · intro h
    have hf : jsTruthyS req.currency = false := by
      rcases h with h | h <;> rw [h] <;> rfl
    unfold updateProfile
    simp only [updProfileName_currency, updProfileDescription_currency, updProfileIndustry_currency, updProfileEmail_currency, updProfilePhone_currency, updProfileWebsite_currency, updProfileAddress_currency, updProfileTimezone_currency, updProfileRegistrationNumber_currency, updProfileTaxId_currency, updProfileCurrency_self_false req _ hf]
  · intro h
    have hf : jsTruthyS req.timezone = false := by
      rcases h with h | h <;> rw [h] <;> rfl
    unfold updateProfile
    simp only [updProfileName_timezone, updProfileDescription_timezone, updProfileIndustry_timezone, updProfileEmail_timezone, updProfilePhone_timezone, updProfileWebsite_timezone, updProfileAddress_timezone, updProfileCurrency_timezone, updProfileRegistrationNumber_timezone, updProfileTaxId_timezone, updProfileTimezone_self_false req _ hf]
  · intro h
    unfold updateProfile
    simp only [updProfileName_description, updProfileIndustry_description, updProfileEmail_description, updProfilePhone_description, updProfileWebsite_description, updProfileAddress_description, updProfileCurrency_description, updProfileTimezone_description, updProfileRegistrationNumber_description, updProfileTaxId_description, updProfileDescription_self_some req _ "" h]
    decide
  · intro h
    unfold updateProfile
    simp only [updProfileName_description, updProfileIndustry_description, updProfileEmail_description, updProfilePhone_description, updProfileWebsite_description, updProfileAddress_description, updProfileCurrency_description, updProfileTimezone_description, updProfileRegistrationNumber_description, updProfileTaxId_description, updProfileDescription_self_none req _ h]
  · intro h
    unfold updateProfile
    simp only [updProfileName_phone, updProfileDescription_phone, updProfileIndustry_phone, updProfileEmail_phone, updProfileWebsite_phone, updProfileAddress_phone, updProfileCurrency_phone, updProfileTimezone_phone, updProfileRegistrationNumber_phone, updProfileTaxId_phone, updProfilePhone_self_some req _ "" h]
    decide
  · intro h
    unfold updateProfile
    simp only [updProfileName_phone, updProfileDescription_phone, updProfileIndustry_phone, updProfileEmail_phone, updProfileWebsite_phone, updProfileAddress_phone, updProfileCurrency_phone, updProfileTimezone_phone, updProfileRegistrationNumber_phone, updProfileTaxId_phone, updProfilePhone_self_none req _ h]
  · intro h
    unfold updateProfile
    simp only [updProfileName_website, updProfileDescription_website, updProfileIndustry_website, updProfileEmail_website, updProfilePhone_website, updProfileAddress_website, updProfileCurrency_website, updProfileTimezone_website, updProfileRegistrationNumber_website, updProfileTaxId_website, updProfileWebsite_self_some req _ "" h]
    decide
  · intro h
    unfold updateProfile
    simp only [updProfileName_website, updProfileDescription_website, updProfileIndustry_website, updProfileEmail_website, updProfilePhone_website, updProfileAddress_website, updProfileCurrency_website, updProfileTimezone_website, updProfileRegistrationNumber_website, updProfileTaxId_website, updProfileWebsite_self_none req _ h]
  · intro h
    unfold updateProfile
    simp only [updProfileName_registrationNumber, updProfileDescription_registrationNumber, updProfileIndustry_registrationNumber, updProfileEmail_registrationNumber, updProfilePhone_registrationNumber, updProfileWebsite_registrationNumber, updProfileAddress_registrationNumber, updProfileCurrency_registrationNumber, updProfileTimezone_registrationNumber, updProfileTaxId_registrationNumber, updProfileRegistrationNumber_self_some req _ "" h]
    decide
  · intro h
    unfold updateProfile
    simp only [updProfileName_registrationNumber, updProfileDescription_registrationNumber, updProfileIndustry_registrationNumber, updProfileEmail_registrationNumber, updProfilePhone_registrationNumber, updProfileWebsite_registrationNumber, updProfileAddress_registrationNumber, updProfileCurrency_registrationNumber, updProfileTimezone_registrationNumber, updProfileTaxId_registrationNumber, updProfileRegistrationNumber_self_none req _ h]
  · intro h
    unfold updateProfile
    simp only [updProfileName_taxId, updProfileDescription_taxId, updProfileIndustry_taxId, updProfileEmail_taxId, updProfilePhone_taxId, updProfileWebsite_taxId, updProfileAddress_taxId, updProfileCurrency_taxId, updProfileTimezone_taxId, updProfileRegistrationNumber_taxId, updProfileTaxId_self_some req _ "" h]
    decide
  · intro h
    unfold updateProfile
    simp only [updProfileName_taxId, updProfileDescription_taxId, updProfileIndustry_taxId, updProfileEmail_taxId, updProfilePhone_taxId, updProfileWebsite_taxId, updProfileAddress_taxId, updProfileCurrency_taxId, updProfileTimezone_taxId, updProfileRegistrationNumber_taxId, updProfileTaxId_self_none req _ h]

/-- A profile request supplying every string field as the empty string. -/
def emptyStrProfileReq : ProfileReq :=
  { name := some "", description := some "", industry := some "",
    email := some "", phone := some "", website := some "", address := none,
    currency := some "", timezone := some "", registrationNumber := some "",
    taxId := some "" }

/-- A profile request supplying nothing. -/
def absentProfileReq : ProfileReq :=
  { name := none, description := none, industry := none, email := none,
    phone := none, website := none, address := none, currency := none,
    timezone := none, registrationNumber := none, taxId := none }

/-- Witness for C10 on the demo business. -/
theorem updateProfile_field_frame_witness :
    (updateProfile demoBusiness emptyStrProfileReq).name = demoBusiness.name ∧
    (updateProfile demoBusiness emptyStrProfileReq).currency = demoBusiness.currency ∧
    (updateProfile demoBusiness emptyStrProfileReq).description = some "" ∧
    (updateProfile demoBusiness emptyStrProfileReq).taxId = some "" ∧
    (updateProfile demoBusiness absentProfileReq).website = demoBusiness.website := by
  refine ⟨?_, ?_, ?_, ?_, ?_⟩
  · exact (updateProfile_field_frame demoBusiness emptyStrProfileReq).1 (Or.inl rfl)
  · exact (updateProfile_field_frame demoBusiness emptyStrProfileReq).2.2.2.1 (Or.inl rfl)
  · exact (updateProfile_field_frame demoBusiness emptyStrProfileReq).2.2.2.2.2.1 rfl
  · exact (updateProfile_field_frame demoBusiness
      emptyStrProfileReq).2.2.2.2.2.2.2.2.2.2.2.2.2.1 rfl
  · exact (updateProfile_field_frame demoBusiness
      absentProfileReq).2.2.2.2.2.2.2.2.2.2.1 rfl
